import Mathlib

/-!
Verification of the cea-toolbox repository against its specification.

Each Python module relevant to the checked claims is shallowly embedded:
pure functions become Lean functions over ℚ / ℤ / ℕ / String / List,
raised Python exceptions become an explicit error type, and
collaborator modules that are outside the given sources are passed in as
explicit parameters, so every theorem quantifies over their behaviour.
-/

/-- Python exceptions raised by the embedded code, tagged by kind. -/
inductive PyError where
  | valueError (msg : String)
  | zeroDivisionError (msg : String)
  | keyError (msg : String)
  | exception (msg : String)
  deriving Repr, DecidableEq

/-- Boolean test that an `Except` result is a raised `ValueError`. -/
def isValueError {α : Type} : Except PyError α → Bool
  | .error (.valueError _) => true
  | _ => false

/-- Boolean test that an `Except` result is a raised `ZeroDivisionError`. -/
def isZeroDivisionError {α : Type} : Except PyError α → Bool
  | .error (.zeroDivisionError _) => true
  | _ => false

namespace ResultSummary

/-!
Embedding of `cea/import_export/result_summary.py`.  The file contains two
concatenated module versions; the later definitions (from line 330 on) shadow
the earlier ones when the module is loaded, so the second variant of
`get_hours_start_end` (start shifted by −24, end unshifted, with the period
classification prints) is the one embedded here.
-/

/-- Month abbreviations recognised by strptime with the %b directive. -/
def monthAbbrevs : List String :=
  ["Jan", "Feb", "Mar", "Apr", "May", "Jun", "Jul", "Aug", "Sep", "Oct", "Nov", "Dec"]

/-- Day counts per month of the (non-leap) year 1900, the default year used by
datetime.strptime when the format string carries no year. -/
def monthDays : List Nat := [31, 28, 31, 30, 31, 30, 31, 31, 30, 31, 30, 31]

/-- Number of days in the 1-based month `m` of the strptime default year. -/
def daysInMonth (m : Nat) : Nat := monthDays.getD (m - 1) 0

/-- Number of days of the year that precede the 1-based month `m`. -/
def cumDaysBefore (m : Nat) : Nat := (monthDays.take (m - 1)).sum

/-- Case-insensitive string comparison over the underlying character lists. -/
def strEqCI (a b : String) : Bool :=
  a.data.map Char.toLower == b.data.map Char.toLower

/-- Case-insensitive lookup of a 3-letter month abbreviation, returning the
1-based month number, as strptime %b does. -/
def monthFromAbbrev? (s : String) : Option Nat :=
  (monthAbbrevs.findIdx? (fun a => strEqCI a s)).map (· + 1)

/-- Parse exactly two ASCII digits into a number (the %d directive as it can
appear inside a 5-character date string). -/
def twoDigits? : List Char → Option Nat
  | [a, b] =>
    if a.isDigit && b.isDigit then
      some ((a.toNat - 48) * 10 + (b.toNat - 48))
    else
      none
  | _ => none

/-- Parse a date string in the day-first format %d%b, e.g. "31Jan".  Returns
(day, month) when the combination is a real date of the non-leap default year,
mirroring the validation strptime performs. -/
def parse_day_month (s : String) : Option (Nat × Nat) :=
  let cs := s.data
  match twoDigits? (cs.take 2), monthFromAbbrev? (String.mk (cs.drop 2)) with
  | some d, some m => if 1 ≤ d && d ≤ daysInMonth m then some (d, m) else none
  | _, _ => none

/-- Parse a date string in the month-first format %b%d, e.g. "Jan31". -/
def parse_month_day (s : String) : Option (Nat × Nat) :=
  let cs := s.data
  match monthFromAbbrev? (String.mk (cs.take 3)), twoDigits? (cs.drop 3) with
  | some m, some d => if 1 ≤ d && d ≤ daysInMonth m then some (d, m) else none
  | _, _ => none

/-- Embedding of the inner helper from_date_string_to_hours of the second
`get_hours_start_end`: try the %d%b format, then %b%d, raise ValueError when
neither parses, and convert the day of the year to the hour of the year.
It is only ever called on strings that already passed the 5-character
validity check. -/
def from_date_string_to_hours (s : String) : Except PyError Int :=
  match parse_day_month s <|> parse_month_day s with
  | some (d, m) =>
      .ok ((((cumDaysBefore m + d : Nat) : Int) - 1) * 24)
  | none => .error (.valueError "Check start date or/and end date of the defined period.")

/-- Embedding of check_user_period_validity: length five, all alphanumeric,
at least one letter and at least one digit (ASCII reading of the Python
str predicates, which is exhaustive over the date strings in play). -/
def check_user_period_validity (s : String) : Bool :=
  s.length == 5 && s.data.all (fun c => c.isAlpha || c.isDigit) &&
    s.data.any (fun c => c.isAlpha) && s.data.any (fun c => c.isDigit)

/-- Fixed blacklist of the twelve calendar-impossible day-month combinations. -/
def list_impossible_dates : List String :=
  ["30Feb", "31Feb", "31Apr", "31Jun", "31Sep", "31Nov",
   "Feb30", "Feb31", "Apr31", "Jun31", "Sep31", "Nov31"]

/-- The leap day in both digit-month orders. -/
def list_leap_dates : List String := ["29Feb", "Feb29"]

/-- Embedding of check_user_period_impossible_date. -/
def check_user_period_impossible_date (s : String) : Bool :=
  list_impossible_dates.contains s

/-- Embedding of check_user_period_leap_date. -/
def check_user_period_leap_date (s : String) : Bool :=
  list_leap_dates.contains s

/-- Embedding of the second (authoritative) `get_hours_start_end` of
result_summary.py: validate both date strings, then return
(hour of start date − 24, hour of end date). -/
def get_hours_start_end (date_start date_end : String) : Except PyError (Int × Int) :=
  if !check_user_period_validity date_start then
    .error (.valueError "Check the start date. Select one number and one month only.")
  else if check_user_period_impossible_date date_start then
    .error (.valueError "Check the start date. Ensure the combination is an actual date.")
  else if check_user_period_leap_date date_start then
    .error (.valueError "Check the start date. CEA does not consider 29 Feb in a leap year.")
  else if !check_user_period_validity date_end then
    .error (.valueError "Check the end date. Select one number and one month only.")
  else if check_user_period_impossible_date date_end then
    .error (.valueError "Check the end date. Ensure the combination is an actual date.")
  else if check_user_period_leap_date date_end then
    .error (.valueError "Check the end date. CEA does not consider 29 Feb in a leap year.")
  else do
    let h_start ← from_date_string_to_hours date_start
    let h_end ← from_date_string_to_hours date_end
    pure (h_start - 24, h_end)

/-- The three period classifications logged by the second variant after
computing the hour pair. -/
inductive PeriodKind where
  | wrapsYearEnd
  | singleDay
  | forwardRange
  deriving Repr, DecidableEq

/-- Embedding of the if / elif / else classification that the function logs:
hour_end below hour_start is the year-end spanning window, equality is a
single calendar day, anything else is a normal forward range. -/
def classify_period (hour_start hour_end : Int) : PeriodKind :=
  if hour_end < hour_start then .wrapsYearEnd
  else if hour_end == hour_start then .singleDay
  else .forwardRange

/-- Embedding of slice_hourly_results_time_period: a contiguous iloc slice
when hour_start ≤ hour_end, otherwise the rows from hour_start to the end of
the 8760-row year concatenated with the rows from 0 to hour_end inclusive,
in that order (the concat list is [bottom_slice, top_slice]). -/
def slice_hourly_results_time_period {α : Type} (df : List α) (hour_start hour_end : Nat) :
    List α :=
  if hour_start ≤ hour_end then
    (df.drop hour_start).take (hour_end + 1 - hour_start)
  else
    let top_slice := df.take (hour_end + 1)
    let bottom_slice := (df.drop hour_start).take (8760 - hour_start)
    bottom_slice ++ top_slice

end ResultSummary

namespace ResultSummary

/-- C4: get_hours_start_end on the dates 01Jan and 31Jan returns the hour pair
(−24, 720), whose difference is exactly 744 hours, with start below end and the
classification branch reporting a normal forward range (no wraparound); on
25Dec and 05Jan it returns (8568, 96) with end below start, which the
classification branch detects as a window spanning year-end. -/
theorem C4_resolve_period_examples :
    (get_hours_start_end "01Jan" "31Jan" = .ok (-24, 720) ∧
      (720 : Int) - (-24) = 744 ∧ (-24 : Int) < 720 ∧
      classify_period (-24) 720 = .forwardRange) ∧
    (get_hours_start_end "25Dec" "05Jan" = .ok (8568, 96) ∧
      (96 : Int) < 8568 ∧
      classify_period 8568 96 = .wrapsYearEnd) := by
  refine ⟨⟨?_, by decide, by decide, by decide⟩, ⟨?_, by decide, by decide⟩⟩ <;> rfl

/-- C5: get_hours_start_end raises a ValueError, and hence returns no hour
pair, whenever either date string belongs to the blacklist of twelve
calendar-impossible combinations or is the leap day 29 Feb in either order. -/
theorem C5_impossible_dates_raise (ds de : String)
    (h : ds ∈ list_impossible_dates ++ list_leap_dates ∨
         de ∈ list_impossible_dates ++ list_leap_dates) :
    isValueError (get_hours_start_end ds de) = true := by
  rcases h with h | h
  · fin_cases h <;> rfl
  · unfold get_hours_start_end
    by_cases h1 : check_user_period_validity ds
    · by_cases h2 : check_user_period_impossible_date ds
      · simp [h1, h2, isValueError]
      · by_cases h3 : check_user_period_leap_date ds
        · simp [h1, h2, h3, isValueError]
        · have hval : check_user_period_validity de = true := by
            fin_cases h <;> rfl
          have himp : check_user_period_impossible_date de = true ∨
              check_user_period_leap_date de = true := by
            fin_cases h <;> decide
          rcases himp with h4 | h4
          · simp [h1, h2, h3, hval, h4, isValueError]
          · by_cases h5 : check_user_period_impossible_date de
            · simp [h1, h2, h3, hval, h5, isValueError]
            · simp [h1, h2, h3, hval, h4, h5, isValueError]
    · simp [h1, isValueError]

/-- C5 witness: both listed start dates, 31Apr and 29Feb, make the function
raise. -/
theorem C5_impossible_dates_raise_witness :
    isValueError (get_hours_start_end "31Apr" "15May") = true ∧
    isValueError (get_hours_start_end "29Feb" "01Mar") = true :=
  ⟨C5_impossible_dates_raise "31Apr" "15May" (Or.inl (by decide)),
   C5_impossible_dates_raise "29Feb" "01Mar" (Or.inl (by decide))⟩

/-- C8 counterexample: on the three-row frame [10, 20, 30] with start 2 and
end 0, the wraparound result is the tail slice followed by the head slice,
[30, 10], not the head slice followed by the tail slice, [10, 30], so the
claimed concatenation order is false. -/
theorem C8_counterexample :
    slice_hourly_results_time_period [(10 : ℚ), 20, 30] 2 0 = [30, 10] ∧
    slice_hourly_results_time_period [(10 : ℚ), 20, 30] 2 0 ≠ [10, 30] := by
  constructor <;> decide

/-- C8 amended: on a full 8760-row frame, slice_hourly_results_time_period
with start above end returns the tail rows from start to 8759 followed by the
head rows from 0 to end inclusive (tail before head); with start at most end
it returns the single contiguous slice from start to end inclusive. -/
theorem C8_amended {α : Type} (df : List α) (hs he : Nat) (hlen : df.length = 8760) :
    (he < hs → slice_hourly_results_time_period df hs he =
      df.drop hs ++ df.take (he + 1)) ∧
    (hs ≤ he → slice_hourly_results_time_period df hs he =
      (df.drop hs).take (he + 1 - hs)) := by
  constructor
  · intro hlt
    have hns : ¬ hs ≤ he := by omega
    have hdrop : (df.drop hs).take (8760 - hs) = df.drop hs := by
      apply List.take_of_length_le
      simp [hlen]
    simp [slice_hourly_results_time_period, hns, hdrop]
  · intro hle
    simp [slice_hourly_results_time_period, hle]

/-- C8 amended witness: the amended theorem applied to a concrete 8760-row
frame with start 2 and end 0. -/
theorem C8_amended_witness :
    (List.replicate 8760 (0 : ℚ)).length = 8760 ∧
    slice_hourly_results_time_period (List.replicate 8760 (0 : ℚ)) 2 0 =
      (List.replicate 8760 (0 : ℚ)).drop 2 ++ (List.replicate 8760 (0 : ℚ)).take 1 :=
  ⟨by rw [List.length_replicate],
   (C8_amended (List.replicate 8760 (0 : ℚ)) 2 0 (by rw [List.length_replicate])).1
     (by decide)⟩

end ResultSummary

namespace RcModel

/-!
Embedding of `cea/demand/rc_model_crank_nicholson_procedure.py`.  The time
series data dict is modelled at a single hour t as a structure of the fields
the procedure reads and writes; the collaborator modules (rc_model_SIA,
airconditioning_model, control_heating_cooling_systems,
space_emission_systems, latent_loads), which are outside the given sources,
are passed in as a record of functions so that every theorem holds for all of
their possible behaviours.  Float NaN writes are modelled with Option.
-/

/-- Temperatures returned by one RC model solve of rc_model_SIA. -/
structure RcTemps where
  T_int : ℚ := 0
  theta_m : ℚ := 0
  theta_c : ℚ := 0
  theta_o : ℚ := 0

/-- Loads, flows and temperatures returned by calc_hvac_heating. -/
structure AcHeating where
  q_hs_sen_hvac : ℚ := 0
  q_hs_lat_hvac : ℚ := 0
  ma_sup_hs : ℚ := 0
  ta_sup_hs : ℚ := 0
  ta_re_hs : ℚ := 0
  e_hs_lat_aux : ℚ := 0
  m_ve_hvac_recirculation : ℚ := 0

/-- Loads, flows and temperatures returned by calc_hvac_cooling. -/
structure AcCooling where
  q_cs_sen_hvac : ℚ := 0
  q_cs_lat_hvac : ℚ := 0
  ma_sup_cs : ℚ := 0
  ta_sup_cs : ℚ := 0
  ta_re_cs : ℚ := 0
  m_ve_hvac_recirculation : ℚ := 0
  q_cs_lat_peop : ℚ := 0

/-- Gain components written by detailed_thermal_balance_to_tsd (their values
are computed from rc_model_SIA intermediates of the collaborating module). -/
structure DetailedGains where
  Qgain_light : ℚ := 0
  Qgain_app : ℚ := 0
  Qgain_data : ℚ := 0
  Q_cool_ref : ℚ := 0
  Qgain_pers : ℚ := 0
  Qgain_wall : ℚ := 0
  Qgain_base : ℚ := 0
  Qgain_roof : ℚ := 0
  Qgain_wind : ℚ := 0
  Qgain_vent : ℚ := 0

/-- Hour-t slice of the tsd dict: every field the dispatch procedure reads or
writes at hour t.  Fields set to float NaN by the code are Option valued. -/
structure TsdHour where
  ta_hs_set : ℚ := 0
  ta_cs_set : ℚ := 0
  T_int : ℚ := 0
  theta_m : ℚ := 0
  theta_c : ℚ := 0
  theta_o : ℚ := 0
  g_hu_ld : ℚ := 0
  g_dhu_ld : ℚ := 0
  x_int : ℚ := 0
  system_status : String := ""
  Qhs_sen : ℚ := 0
  Qhs_sen_sys : ℚ := 0
  Qhs_lat_sys : ℚ := 0
  Qhs_em_ls : ℚ := 0
  Ehs_lat_aux : ℚ := 0
  ma_sup_hs : ℚ := 0
  Ta_sup_hs : ℚ := 0
  Ta_re_hs : ℚ := 0
  m_ve_recirculation : ℚ := 0
  Qhsf : ℚ := 0
  Qhsf_lat : ℚ := 0
  Qhs_sen_rc : ℚ := 0
  Qhs_sen_shu : ℚ := 0
  Qhs_sen_aru : ℚ := 0
  Qhs_sen_ahu : ℚ := 0
  Qhs_lat_aru : ℚ := 0
  Qhs_lat_ahu : ℚ := 0
  ma_sup_hs_ahu : ℚ := 0
  ta_sup_hs_ahu : Option ℚ := none
  ta_re_hs_ahu : Option ℚ := none
  ma_sup_hs_aru : ℚ := 0
  ta_sup_hs_aru : Option ℚ := none
  ta_re_hs_aru : Option ℚ := none
  Qcs : ℚ := 0
  Qcs_sen : ℚ := 0
  Qcs_sen_sys : ℚ := 0
  Qcs_lat_sys : ℚ := 0
  Qcs_em_ls : ℚ := 0
  ma_sup_cs : ℚ := 0
  Ta_sup_cs : ℚ := 0
  Ta_re_cs : ℚ := 0
  q_cs_lat_peop : ℚ := 0
  Qcsf : ℚ := 0
  Qcsf_lat : ℚ := 0
  Qcs_sen_rc : ℚ := 0
  Qcs_sen_scu : ℚ := 0
  Qcs_sen_aru : ℚ := 0
  Qcs_sen_ahu : ℚ := 0
  Qcs_lat_aru : ℚ := 0
  Qcs_lat_ahu : ℚ := 0
  ma_sup_cs_ahu : ℚ := 0
  ta_sup_cs_ahu : Option ℚ := none
  ta_re_cs_ahu : Option ℚ := none
  ma_sup_cs_aru : ℚ := 0
  ta_sup_cs_aru : Option ℚ := none
  ta_re_cs_aru : Option ℚ := none
  Qgain_light : ℚ := 0
  Qgain_app : ℚ := 0
  Qgain_data : ℚ := 0
  Q_cool_ref : ℚ := 0
  Qgain_pers : ℚ := 0
  Qgain_wall : ℚ := 0
  Qgain_base : ℚ := 0
  Qgain_roof : ℚ := 0
  Qgain_wind : ℚ := 0
  Qgain_vent : ℚ := 0

/-- Building properties read by the procedure. -/
structure Bpr where
  Af : ℚ := 0
  Qhsmax_Wm2 : ℚ := 0
  Qcsmax_Wm2 : ℚ := 0

/-- Collaborating modules at hour t, as a record of their results: boolean
system predicates, RC temperature solves as functions of the injected power,
the AC model, emission-loss and latent-load calculations, and the detailed
thermal balance gains. -/
structure Collab where
  is_active_heating_system : Bool := false
  is_active_cooling_system : Bool := false
  heating_system_is_ac : Bool := false
  cooling_system_is_ac : Bool := false
  calc_rc_model_temperatures_no_heating_cooling : RcTemps := {}
  calc_rc_model_temperatures_heating : ℚ → RcTemps := fun _ => {}
  calc_rc_model_temperatures_cooling : ℚ → RcTemps := fun _ => {}
  calc_hvac_heating : TsdHour → AcHeating := fun _ => {}
  calc_hvac_cooling : TsdHour → AcCooling := fun _ => {}
  calc_q_em_ls_heating : TsdHour → ℚ := fun _ => 0
  calc_q_em_ls_cooling : TsdHour → ℚ := fun _ => 0
  calc_moisture_content_in_zone_local : TsdHour → ℚ := fun _ => 0
  detailed_thermal_balance : TsdHour → RcTemps → DetailedGains := fun _ _ => {}

/-- Embedding of update_tsd_no_heating: zero every heating load field and set
the heating air-handling temperatures to NaN. -/
def update_tsd_no_heating (tsd : TsdHour) : TsdHour :=
  { tsd with
    Qhs_sen_rc := 0, Qhs_sen_shu := 0, Qhs_sen_aru := 0, Qhs_sen_ahu := 0,
    Qhs_lat_aru := 0, Qhs_lat_ahu := 0,
    Qhs_sen_sys := 0, Qhs_lat_sys := 0, Qhs_em_ls := 0,
    ma_sup_hs_ahu := 0, ta_sup_hs_ahu := none, ta_re_hs_ahu := none,
    ma_sup_hs_aru := 0, ta_sup_hs_aru := none, ta_re_hs_aru := none }

/-- Embedding of update_tsd_no_cooling: zero every cooling load field and set
the cooling air-handling temperatures to NaN. -/
def update_tsd_no_cooling (tsd : TsdHour) : TsdHour :=
  { tsd with
    Qcs_sen_rc := 0, Qcs_sen_scu := 0, Qcs_sen_aru := 0, Qcs_sen_ahu := 0,
    Qcs_lat_aru := 0, Qcs_lat_ahu := 0,
    Qcs_sen_sys := 0, Qcs_lat_sys := 0, Qcs_em_ls := 0,
    ma_sup_cs_ahu := 0, ta_sup_cs_ahu := none, ta_re_cs_ahu := none,
    ma_sup_cs_aru := 0, ta_sup_cs_aru := none, ta_re_cs_aru := none }

/-- Embedding of the writes of detailed_thermal_balance_to_tsd: it only sets
the reporting gain fields, never the governing loads or temperatures. -/
def apply_detailed_thermal_balance (g : DetailedGains) (tsd : TsdHour) : TsdHour :=
  { tsd with
    Qgain_light := g.Qgain_light, Qgain_app := g.Qgain_app,
    Qgain_data := g.Qgain_data, Q_cool_ref := g.Q_cool_ref,
    Qgain_pers := g.Qgain_pers, Qgain_wall := g.Qgain_wall,
    Qgain_base := g.Qgain_base, Qgain_roof := g.Qgain_roof,
    Qgain_wind := g.Qgain_wind, Qgain_vent := g.Qgain_vent }

/-- Embedding of STEP 3 of the heating branch: use the interpolated power when
it is positive and within capacity, clamp to phi_h_max when it is positive and
beyond capacity, and raise on every other sign combination. -/
def clamp_heating_power (phi_hc_ul phi_h_max : ℚ) : Except PyError ℚ :=
  if 0 < phi_hc_ul ∧ phi_hc_ul ≤ phi_h_max then .ok phi_hc_ul
  else if 0 < phi_hc_ul ∧ phi_h_max < phi_hc_ul then .ok phi_h_max
  else .error (.exception "something went wrong")

/-- Embedding of STEP 3 of the cooling branch, with the mirrored inequalities
on negative powers. -/
def clamp_cooling_power (phi_hc_ul phi_c_max : ℚ) : Except PyError ℚ :=
  if phi_hc_ul < 0 ∧ phi_c_max ≤ phi_hc_ul then .ok phi_hc_ul
  else if phi_hc_ul < 0 ∧ phi_hc_ul < phi_c_max then .ok phi_c_max
  else .error (.exception "ups something went wrong")

/-- Embedding of calc_rc_model_demand_heating_cooling: the three-state
dispatch (systems off / heating / cooling) of the Crank-Nicholson procedure,
followed by the detailed thermal balance reporting step. -/
def calc_rc_model_demand_heating_cooling (c : Collab) (bpr : Bpr) (tsd : TsdHour) :
    Except PyError TsdHour :=
  if !c.is_active_heating_system && !c.is_active_cooling_system then
    -- CASE 0 - NO HEATING OR COOLING
    let rc := c.calc_rc_model_temperatures_no_heating_cooling
    let tsd0 := { tsd with g_hu_ld := 0, g_dhu_ld := 0 }
    let tsd1 := { tsd0 with x_int := c.calc_moisture_content_in_zone_local tsd0 }
    let tsd2 := { tsd1 with
      T_int := rc.T_int, theta_m := rc.theta_m, theta_c := rc.theta_c,
      theta_o := rc.theta_o }
    let tsd3 := update_tsd_no_cooling tsd2
    let tsd4 := update_tsd_no_heating tsd3
    let tsd5 := { tsd4 with system_status := "systems off" }
    .ok (apply_detailed_thermal_balance (c.detailed_thermal_balance tsd5 rc) tsd5)
  else if c.is_active_heating_system then
    -- CASE 1 - HEATING
    let tsd0 := { tsd with system_status := "Radiative heating" }
    let rc0 := c.calc_rc_model_temperatures_no_heating_cooling
    let T_int_0 := rc0.T_int
    let phi_hc_10 := 10 * bpr.Af
    let rc10 := c.calc_rc_model_temperatures_heating phi_hc_10
    let T_int_10 := rc10.T_int
    let T_int_set := tsd0.ta_hs_set
    let phi_hc_ul := phi_hc_10 * (T_int_set - T_int_0) / (T_int_10 - T_int_0)
    let phi_h_max := bpr.Qhsmax_Wm2 * bpr.Af
    match clamp_heating_power phi_hc_ul phi_h_max with
    | .error e => .error e
    | .ok phi_h_act =>
      let rc := c.calc_rc_model_temperatures_heating phi_h_act
      let tsd1 := { tsd0 with
        T_int := rc.T_int, theta_m := rc.theta_m, theta_c := rc.theta_c,
        theta_o := rc.theta_o,
        Qhs_sen := phi_h_act, Qhs_sen_sys := phi_h_act, Qhs_lat_sys := 0,
        Ehs_lat_aux := 0, ma_sup_hs := 0, Ta_sup_hs := 0, Ta_re_hs := 0,
        m_ve_recirculation := 0 }
      let step5 :=
        if c.heating_system_is_ac then
          let ac := c.calc_hvac_heating tsd1
          let tsd2 := { tsd1 with system_status := "AC heating" }
          let over :=
            if phi_h_act < ac.q_hs_sen_hvac then
              let rc2 := c.calc_rc_model_temperatures_heating ac.q_hs_sen_hvac
              ({ tsd2 with
                 T_int := rc2.T_int, theta_m := rc2.theta_m,
                 theta_c := rc2.theta_c, theta_o := rc2.theta_o,
                 system_status := "AC over heating" }, rc2)
            else (tsd2, rc)
          ({ over.1 with
             Qhs_sen_sys := ac.q_hs_sen_hvac, Qhs_lat_sys := ac.q_hs_lat_hvac,
             ma_sup_hs := ac.ma_sup_hs, Ta_sup_hs := ac.ta_sup_hs,
             Ta_re_hs := ac.ta_re_hs, Ehs_lat_aux := ac.e_hs_lat_aux,
             m_ve_recirculation := ac.m_ve_hvac_recirculation }, over.2)
        else (tsd1, rc)
      let q_em_ls_heating := c.calc_q_em_ls_heating step5.1
      let tsd6 := { step5.1 with
        T_int := step5.2.T_int, theta_m := step5.2.theta_m,
        theta_c := step5.2.theta_c, theta_o := step5.2.theta_o,
        Qhs_lat_sys := 0, Qhs_em_ls := q_em_ls_heating, Qhs_sen := phi_h_act,
        Qhsf := 0, Qhsf_lat := 0 }
      let tsd7 := update_tsd_no_cooling tsd6
      .ok (apply_detailed_thermal_balance (c.detailed_thermal_balance tsd7 step5.2) tsd7)
  else
    -- CASE 2 - COOLING
    let tsd0 := { tsd with system_status := "Radiative cooling" }
    let rc0 := c.calc_rc_model_temperatures_no_heating_cooling
    let T_int_0 := rc0.T_int
    let phi_hc_10 := 10 * bpr.Af
    let rc10 := c.calc_rc_model_temperatures_cooling phi_hc_10
    let T_int_10 := rc10.T_int
    let T_int_set := tsd0.ta_cs_set
    let phi_hc_ul := phi_hc_10 * (T_int_set - T_int_0) / (T_int_10 - T_int_0)
    let phi_c_max := -bpr.Qcsmax_Wm2 * bpr.Af
    match clamp_cooling_power phi_hc_ul phi_c_max with
    | .error e => .error e
    | .ok phi_c_act =>
      let rc := c.calc_rc_model_temperatures_cooling phi_c_act
      let tsd1 := { tsd0 with
        T_int := rc.T_int, theta_m := rc.theta_m, theta_c := rc.theta_c,
        theta_o := rc.theta_o,
        Qcs_sen := phi_c_act, Qcs_sen_sys := phi_c_act, Qcs_lat_sys := 0,
        ma_sup_cs := 0, m_ve_recirculation := 0 }
      let step5 :=
        if c.cooling_system_is_ac then
          let tsd2 := { tsd1 with system_status := "AC cooling" }
          let ac := c.calc_hvac_cooling tsd2
          let over :=
            if ac.q_cs_sen_hvac < phi_c_act then
              let rc2 := c.calc_rc_model_temperatures_cooling ac.q_cs_sen_hvac
              ({ tsd2 with
                 T_int := rc2.T_int, theta_m := rc2.theta_m,
                 theta_c := rc2.theta_c, theta_o := rc2.theta_o,
                 system_status := "AC over cooling" }, rc2)
            else (tsd2, rc)
          ({ over.1 with
             Qcs_sen_sys := ac.q_cs_sen_hvac, Qcs_lat_sys := ac.q_cs_lat_hvac,
             ma_sup_cs := ac.ma_sup_cs, Ta_sup_cs := ac.ta_sup_cs,
             Ta_re_cs := ac.ta_re_cs,
             m_ve_recirculation := ac.m_ve_hvac_recirculation,
             q_cs_lat_peop := ac.q_cs_lat_peop }, over.2)
        else (tsd1, rc)
      let q_em_ls_cooling := c.calc_q_em_ls_cooling step5.1
      let tsd6 := { step5.1 with
        T_int := step5.2.T_int, theta_m := step5.2.theta_m,
        theta_c := step5.2.theta_c, theta_o := step5.2.theta_o,
        Qcs := 0, Qcs_em_ls := q_em_ls_cooling, Qcsf := 0, Qcsf_lat := 0 }
      let tsd7 := update_tsd_no_heating tsd6
      .ok (apply_detailed_thermal_balance (c.detailed_thermal_balance tsd7 step5.2) tsd7)

end RcModel

namespace RcModel

/-- The interpolated required heating power phi_hc_ul of equation (64), as the
heating branch computes it from the two probe solves and the setpoint. -/
def interpolated_heating_power (c : Collab) (bpr : Bpr) (tsd : TsdHour) : ℚ :=
  (10 * bpr.Af) *
      (tsd.ta_hs_set - c.calc_rc_model_temperatures_no_heating_cooling.T_int) /
    ((c.calc_rc_model_temperatures_heating (10 * bpr.Af)).T_int -
      c.calc_rc_model_temperatures_no_heating_cooling.T_int)

/-- Helper: with an active heating system, the dispatch returns whatever the
capacity clamp produced, and the realized sensible heating power written to
Qhs_sen is exactly the clamped power. -/
theorem heating_branch_ok (c : Collab) (bpr : Bpr) (tsd : TsdHour)
    (hact : c.is_active_heating_system = true) (phi_h_act : ℚ)
    (hclamp : clamp_heating_power (interpolated_heating_power c bpr tsd)
      (bpr.Qhsmax_Wm2 * bpr.Af) = .ok phi_h_act) :
    ∃ out, calc_rc_model_demand_heating_cooling c bpr tsd = .ok out ∧
      out.Qhs_sen = phi_h_act := by
  unfold calc_rc_model_demand_heating_cooling
  rw [hact]
  simp only [Bool.not_true, Bool.false_and, Bool.false_eq_true, if_false, if_true]
  have : clamp_heating_power
      ((10 * bpr.Af) *
          (tsd.ta_hs_set - c.calc_rc_model_temperatures_no_heating_cooling.T_int) /
        ((c.calc_rc_model_temperatures_heating (10 * bpr.Af)).T_int -
          c.calc_rc_model_temperatures_no_heating_cooling.T_int))
      (bpr.Qhsmax_Wm2 * bpr.Af) = .ok phi_h_act := hclamp
  rw [this]
  refine ⟨_, rfl, ?_⟩
  by_cases hac : c.heating_system_is_ac = true
  · simp only [hac, if_true]
    split <;> simp [update_tsd_no_cooling, apply_detailed_thermal_balance]
  · simp [hac, update_tsd_no_cooling, apply_detailed_thermal_balance]

/-- Helper: with an active heating system, a failing capacity clamp makes the
whole dispatch raise that error. -/
theorem heating_branch_error (c : Collab) (bpr : Bpr) (tsd : TsdHour)
    (hact : c.is_active_heating_system = true) (e : PyError)
    (hclamp : clamp_heating_power (interpolated_heating_power c bpr tsd)
      (bpr.Qhsmax_Wm2 * bpr.Af) = .error e) :
    calc_rc_model_demand_heating_cooling c bpr tsd = .error e := by
  unfold calc_rc_model_demand_heating_cooling
  rw [hact]
  simp only [Bool.not_true, Bool.false_and, Bool.false_eq_true, if_false, if_true]
  have : clamp_heating_power
      ((10 * bpr.Af) *
          (tsd.ta_hs_set - c.calc_rc_model_temperatures_no_heating_cooling.T_int) /
        ((c.calc_rc_model_temperatures_heating (10 * bpr.Af)).T_int -
          c.calc_rc_model_temperatures_no_heating_cooling.T_int))
      (bpr.Qhsmax_Wm2 * bpr.Af) = .error e := hclamp
  rw [this]

/-- C1: in the heating branch of calc_rc_model_demand_heating_cooling, for any
hour with an active heating system and any collaborator behaviour: when the
interpolated power phi_hc_ul exceeds phi_h_max = Qhsmax_Wm2 * Af (phi_h_max
being nonnegative, as a product of a capacity and an area), the realized
applied power equals phi_h_max exactly; when 0 < phi_hc_ul ≤ phi_h_max it
equals phi_hc_ul; and every other sign combination (phi_hc_ul ≤ 0) raises the
internal-consistency exception instead of returning. -/
theorem C1_heating_capacity_clamp (c : Collab) (bpr : Bpr) (tsd : TsdHour)
    (hact : c.is_active_heating_system = true) :
    (0 ≤ bpr.Qhsmax_Wm2 * bpr.Af →
      bpr.Qhsmax_Wm2 * bpr.Af < interpolated_heating_power c bpr tsd →
      ∃ out, calc_rc_model_demand_heating_cooling c bpr tsd = .ok out ∧
        out.Qhs_sen = bpr.Qhsmax_Wm2 * bpr.Af) ∧
    (0 < interpolated_heating_power c bpr tsd →
      interpolated_heating_power c bpr tsd ≤ bpr.Qhsmax_Wm2 * bpr.Af →
      ∃ out, calc_rc_model_demand_heating_cooling c bpr tsd = .ok out ∧
        out.Qhs_sen = interpolated_heating_power c bpr tsd) ∧
    (interpolated_heating_power c bpr tsd ≤ 0 →
      calc_rc_model_demand_heating_cooling c bpr tsd =
        .error (.exception "something went wrong")) := by
  refine ⟨?_, ?_, ?_⟩
  · intro hmax hover
    apply heating_branch_ok c bpr tsd hact
    unfold clamp_heating_power
    have h1 : ¬ (0 < interpolated_heating_power c bpr tsd ∧
        interpolated_heating_power c bpr tsd ≤ bpr.Qhsmax_Wm2 * bpr.Af) := by
      rintro ⟨-, h⟩; linarith
    have h2 : 0 < interpolated_heating_power c bpr tsd ∧
        bpr.Qhsmax_Wm2 * bpr.Af < interpolated_heating_power c bpr tsd :=
      ⟨by linarith, hover⟩
    simp [h1, h2]
  · intro hpos hle
    apply heating_branch_ok c bpr tsd hact
    unfold clamp_heating_power
    simp [And.intro hpos hle]
  · intro hnp
    apply heating_branch_error c bpr tsd hact
    unfold clamp_heating_power
    have h1 : ¬ (0 < interpolated_heating_power c bpr tsd ∧
        interpolated_heating_power c bpr tsd ≤ bpr.Qhsmax_Wm2 * bpr.Af) := by
      rintro ⟨h, -⟩; linarith
    have h2 : ¬ (0 < interpolated_heating_power c bpr tsd ∧
        bpr.Qhsmax_Wm2 * bpr.Af < interpolated_heating_power c bpr tsd) := by
      rintro ⟨h, -⟩; linarith
    simp [h1, h2]

/-- Concrete collaborator record for the heating-branch witness: heating is
active, the free-floating solve settles at 10 degrees and any heated solve at
11 degrees. -/
def collabHeatW : Collab :=
  { is_active_heating_system := true,
    calc_rc_model_temperatures_no_heating_cooling := { T_int := 10 },
    calc_rc_model_temperatures_heating := fun _ => { T_int := 11 } }

/-- Concrete building for the witness: one square meter of conditioned area
and a 5 W per square meter heating capacity. -/
def bprW : Bpr := { Af := 1, Qhsmax_Wm2 := 5 }

/-- Concrete tsd hour for the witness: heating setpoint of 20 degrees. -/
def tsdW : TsdHour := { ta_hs_set := 20 }

/-- C1 witness: at the concrete instance the interpolated power is 100, the
capacity limit is 5, and the dispatch succeeds with realized power 5. -/
theorem C1_heating_capacity_clamp_witness :
    (0 : ℚ) ≤ bprW.Qhsmax_Wm2 * bprW.Af ∧
    bprW.Qhsmax_Wm2 * bprW.Af < interpolated_heating_power collabHeatW bprW tsdW ∧
    (∃ out, calc_rc_model_demand_heating_cooling collabHeatW bprW tsdW = .ok out ∧
      out.Qhs_sen = bprW.Qhsmax_Wm2 * bprW.Af) :=
  ⟨by norm_num [bprW],
   by norm_num [bprW, tsdW, collabHeatW, interpolated_heating_power],
   (C1_heating_capacity_clamp collabHeatW bprW tsdW rfl).1
     (by norm_num [bprW])
     (by norm_num [bprW, tsdW, collabHeatW, interpolated_heating_power])⟩

/-- C2: whenever neither an active heating system nor an active cooling
system exists at hour t, calc_rc_model_demand_heating_cooling succeeds and the
resulting hour has Qhs_sen_sys, Qhs_lat_sys, Qcs_sen_sys, Qcs_lat_sys,
Qhs_em_ls and Qcs_em_ls all exactly 0, and system_status equal to the string
"systems off", for every collaborator behaviour, building and incoming state. -/
theorem C2_systems_off_zeroing (c : Collab) (bpr : Bpr) (tsd : TsdHour)
    (hh : c.is_active_heating_system = false)
    (hc : c.is_active_cooling_system = false) :
    ∃ out, calc_rc_model_demand_heating_cooling c bpr tsd = .ok out ∧
      out.Qhs_sen_sys = 0 ∧ out.Qhs_lat_sys = 0 ∧
      out.Qcs_sen_sys = 0 ∧ out.Qcs_lat_sys = 0 ∧
      out.Qhs_em_ls = 0 ∧ out.Qcs_em_ls = 0 ∧
      out.system_status = "systems off" := by
  unfold calc_rc_model_demand_heating_cooling
  rw [hh, hc]
  exact ⟨_, rfl, by
    simp [update_tsd_no_heating, update_tsd_no_cooling, apply_detailed_thermal_balance]⟩

/-- C2 witness: the theorem applied to the all-default collaborator record
(both systems inactive), an all-default building and an all-default hour. -/
theorem C2_systems_off_zeroing_witness :
    ∃ out, calc_rc_model_demand_heating_cooling {} {} {} = .ok out ∧
      out.Qhs_sen_sys = 0 ∧ out.Qhs_lat_sys = 0 ∧
      out.Qcs_sen_sys = 0 ∧ out.Qcs_lat_sys = 0 ∧
      out.Qhs_em_ls = 0 ∧ out.Qcs_em_ls = 0 ∧
      out.system_status = "systems off" :=
  C2_systems_off_zeroing {} {} {} rfl rfl

end RcModel

namespace Evaluation

/-!
Embedding of the solar aggregation loop of calc_solar_features_individual in
`cea/optimization/master/evaluation.py` (the accumulation over buildings,
lines 257 to 289 of the source).  Hourly csv columns are modelled as functions
from the hour index to ℚ; numpy elementwise array addition is pointwise
addition of these functions.
-/

/-- Pre-computed per-building hourly solar potential columns, one field per
csv column read by the loop (the SC columns appear once per collector file,
so they are prefixed with the file kind here). -/
structure BuildingSolar where
  E_PVT_gen_kWh : ℕ → ℚ := fun _ => 0
  Q_PVT_gen_kWh : ℕ → ℚ := fun _ => 0
  Area_PVT_m2 : ℕ → ℚ := fun _ => 0
  SC_ET_Q_SC_gen_kWh : ℕ → ℚ := fun _ => 0
  SC_ET_Area_SC_m2 : ℕ → ℚ := fun _ => 0
  SC_FP_Q_SC_gen_kWh : ℕ → ℚ := fun _ => 0
  SC_FP_Area_SC_m2 : ℕ → ℚ := fun _ => 0
  Area_PV_m2 : ℕ → ℚ := fun _ => 0
  E_PV_gen_kWh : ℕ → ℚ := fun _ => 0

/-- The share genes of the master-to-slave variables read by the loop. -/
structure MasterToSlaveSolar where
  SOLAR_PART_PVT : ℚ := 0
  SOLAR_PART_SC_ET : ℚ := 0
  SOLAR_PART_SC_FP : ℚ := 0
  SOLAR_PART_PV : ℚ := 0

/-- Running totals of the loop, initialised to all-zero hourly series. -/
structure SolarSeriesAcc where
  E_PV_gen_kWh : ℕ → ℚ := fun _ => 0
  E_PVT_gen_kWh : ℕ → ℚ := fun _ => 0
  Q_PVT_gen_kWh : ℕ → ℚ := fun _ => 0
  Q_SC_FP_gen_kWh : ℕ → ℚ := fun _ => 0
  Q_SC_ET_gen_kWh : ℕ → ℚ := fun _ => 0
  A_PV_m2 : ℕ → ℚ := fun _ => 0
  A_PVT_m2 : ℕ → ℚ := fun _ => 0
  A_SC_FP_m2 : ℕ → ℚ := fun _ => 0
  A_SC_ET_m2 : ℕ → ℚ := fun _ => 0

/-- Embedding of the aggregation loop of calc_solar_features_individual over
zip(DHN_barcode, building_names): PVT and the two solar-collector kinds are
accumulated only for buildings whose barcode bit is the character 1 and only
when the respective share gene is strictly positive; PV is accumulated for
every building (connected or not) when its share gene is strictly positive.
The PV energy line reproduces the source statement
E_PV_gen_kWh += E_PV_gen_kWh + building_PV, which adds the running total to
itself before adding the building series. -/
def calc_solar_series (mtsv : MasterToSlaveSolar) (DHN_barcode : List Char)
    (buildings : List BuildingSolar) : SolarSeriesAcc :=
  (DHN_barcode.zip buildings).foldl (fun acc ib =>
    let acc1 :=
      if ib.1 = '1' then
        let accA :=
          if mtsv.SOLAR_PART_PVT > 0 then
            { acc with
              E_PVT_gen_kWh := fun t => acc.E_PVT_gen_kWh t + ib.2.E_PVT_gen_kWh t,
              Q_PVT_gen_kWh := fun t => acc.Q_PVT_gen_kWh t + ib.2.Q_PVT_gen_kWh t,
              A_PVT_m2 := fun t => acc.A_PVT_m2 t + ib.2.Area_PVT_m2 t }
          else acc
        let accB :=
          if mtsv.SOLAR_PART_SC_ET > 0 then
            { accA with
              Q_SC_ET_gen_kWh := fun t =>
                accA.Q_SC_ET_gen_kWh t + ib.2.SC_ET_Q_SC_gen_kWh t,
              A_SC_ET_m2 := fun t => accA.A_SC_ET_m2 t + ib.2.SC_ET_Area_SC_m2 t }
          else accA
        if mtsv.SOLAR_PART_SC_FP > 0 then
          { accB with
            Q_SC_FP_gen_kWh := fun t =>
              accB.Q_SC_FP_gen_kWh t + ib.2.SC_FP_Q_SC_gen_kWh t,
            A_SC_FP_m2 := fun t => accB.A_SC_FP_m2 t + ib.2.SC_FP_Area_SC_m2 t }
        else accB
      else acc
    if mtsv.SOLAR_PART_PV > 0 then
      { acc1 with
        A_PV_m2 := fun t => acc1.A_PV_m2 t + ib.2.Area_PV_m2 t,
        E_PV_gen_kWh := fun t =>
          acc1.E_PV_gen_kWh t + (acc1.E_PV_gen_kWh t + ib.2.E_PV_gen_kWh t) }
    else acc1) {}

/-- Witness share genes: only PV enabled. -/
def mtsvPvW : MasterToSlaveSolar := { SOLAR_PART_PV := 1 }

/-- First witness building: constant PV generation of 100 kWh per hour. -/
def bldPv100 : BuildingSolar := { E_PV_gen_kWh := fun _ => 100 }

/-- Second witness building: constant PV generation of 200 kWh per hour. -/
def bldPv200 : BuildingSolar := { E_PV_gen_kWh := fun _ => 200 }

/-- C3: at the failing input of two buildings with constant hourly PV series
100 and 200 and a strictly positive PV share gene, the aggregated PV series of
the code equals 400 at every hour, while the elementwise sum of the
per-building series the claim demands is 300; the accumulation statement adds
the running total twice.  The PV aggregation does run for both buildings even
though neither barcode bit is 1, as claimed, but the value it accumulates is
not the sum. -/
theorem C3_pv_aggregation_code_bug :
    (calc_solar_series mtsvPvW ['0', '0'] [bldPv100, bldPv200]).E_PV_gen_kWh 0 = 400 ∧
    bldPv100.E_PV_gen_kWh 0 + bldPv200.E_PV_gen_kWh 0 = 300 ∧
    (400 : ℚ) ≠ 300 := by
  refine ⟨?_, by norm_num [bldPv100, bldPv200], by norm_num⟩
  norm_num [calc_solar_series, mtsvPvW, bldPv100, bldPv200]

end Evaluation

namespace ResultReader

/-!
Embedding of calc_self_consumption from
`cea/utilities/result_reader_analysis.py`.  The helpers
get_date_range_hours_from_year and generate_season_masks live in
cea.utilities.date, outside the given sources, and pandas resampling depends
on the calendar they produce; both are therefore abstracted into a record of
grouping functions, so every theorem quantifies over all calendars.  Hourly
series are lists of rationals indexed by hour.
-/

/-- Calendar-dependent grouping behaviour: season membership masks by season
name, and the resample group assigned to each hour for a pandas frequency
code (A, D, W or M). -/
structure TimeGrouping where
  seasonMask : String → ℕ → Bool := fun _ _ => true
  resampleGroup : String → ℕ → ℕ := fun _ _ => 0

/-- The four season keys produced by generate_season_masks. -/
def seasonNames : List String := ["winter", "spring", "summer", "autumn"]

/-- Sum of the entries of a series selected by a boolean mask, starting at
hour index i (the pandas masked column sum df.loc[mask, col].sum()). -/
def maskSumFrom (mask : ℕ → Bool) : ℕ → List ℚ → ℚ
  | _, [] => 0
  | i, x :: xs => (if mask i then x else 0) + maskSumFrom mask (i + 1) xs

/-- Sum of the pointwise minima of two series restricted to a mask (the
pandas df.loc[mask].min(axis=1).sum() over the two columns). -/
def maskMinSumFrom (mask : ℕ → Bool) : ℕ → List ℚ → List ℚ → ℚ
  | _, [], _ => 0
  | _, _ :: _, [] => 0
  | i, x :: xs, y :: ys =>
      (if mask i then min x y else 0) + maskMinSumFrom mask (i + 1) xs ys

/-- Group total of a series under a resample group assignment. -/
def groupSum (f : ℕ → ℕ) (g : ℕ) (xs : List ℚ) : ℚ :=
  maskSumFrom (fun i => f i == g) 0 xs

/-- The resample-then-min-then-sum pattern of calc_self_consumption: group
both columns by the assignment, per group take the minimum of the two group
totals, and sum over the groups occurring over the series. -/
def resampleMinSum (f : ℕ → ℕ) (gen demand : List ℚ) : ℚ :=
  ((((List.range gen.length).map f).dedup).map
    (fun g => min (groupSum f g gen) (groupSum f g demand))).sum

/-- Sum over the whole year of the pointwise minimum of the two columns (the
pandas df.min(axis=1).sum()). -/
def hourlyMinSum (gen demand : List ℚ) : ℚ :=
  (List.zipWith min gen demand).sum

/-- Python endswith for the +hourly suffix. -/
def endsWithPlusHourly (s : String) : Bool :=
  let cs := s.data
  decide (7 ≤ cs.length) && cs.drop (cs.length - 7) == "+hourly".data

/-- The part of a string before its first plus sign, i.e. split on plus and
take the first piece. -/
def baseSeasonOf (s : String) : String :=
  String.mk (s.data.takeWhile (fun c => c ≠ '+'))

/-- Embedding of calc_self_consumption: the branch structure over
time_period, with every ratio guarded by an explicit ZeroDivisionError raise
when its generation denominator is zero. -/
def calc_self_consumption (tg : TimeGrouping) (gen_kwh demand_kWh : List ℚ)
    (time_period : String) : Except PyError ℚ :=
  if time_period = "annual" then
    let use := resampleMinSum (tg.resampleGroup "A") gen_kwh demand_kWh
    let total_gen := gen_kwh.sum
    if total_gen = 0 then
      .error (.zeroDivisionError "Total generated kWh is zero, cannot divide by zero.")
    else .ok (use / total_gen)
  else if time_period = "seasonal" then
    let min_per_season_sum :=
      (seasonNames.map (fun s =>
        min (maskSumFrom (tg.seasonMask s) 0 gen_kwh)
          (maskSumFrom (tg.seasonMask s) 0 demand_kWh))).sum
    let total_gen := gen_kwh.sum
    if total_gen = 0 then
      .error (.zeroDivisionError "Total generated kWh is zero, cannot divide by zero.")
    else .ok (min_per_season_sum / total_gen)
  else if ["winter", "spring", "summer", "autumn", "winter+hourly", "spring+hourly",
      "summer+hourly", "autumn+hourly"].contains time_period then
    let base_season := baseSeasonOf time_period
    if !seasonNames.contains base_season then
      .error (.valueError "Invalid season specified.")
    else
      let season_gen := maskSumFrom (tg.seasonMask base_season) 0 gen_kwh
      let season_demand := maskSumFrom (tg.seasonMask base_season) 0 demand_kWh
      if endsWithPlusHourly time_period then
        let use := maskMinSumFrom (tg.seasonMask base_season) 0 gen_kwh demand_kWh
        let total_gen := season_gen
        if total_gen = 0 then
          .error (.zeroDivisionError
            "Total generated kWh for the season is zero, cannot divide by zero.")
        else .ok (use / total_gen)
      else
        if season_gen = 0 then
          .error (.zeroDivisionError
            "Total generated kWh for the season is zero, cannot divide by zero.")
        else .ok (min season_gen season_demand / season_gen)
  else if ["daily", "weekly", "monthly"].contains time_period then
    match [("daily", "D"), ("weekly", "W"), ("monthly", "M")].lookup time_period with
    | some resample_code =>
      let use := resampleMinSum (tg.resampleGroup resample_code) gen_kwh demand_kWh
      let total_gen := gen_kwh.sum
      if total_gen = 0 then
        .error (.zeroDivisionError "Total generated kWh is zero, cannot divide by zero.")
      else .ok (use / total_gen)
    | none => .error (.valueError "Invalid time_period.")
  else if time_period = "hourly" then
    let use := hourlyMinSum gen_kwh demand_kWh
    let total_gen := gen_kwh.sum
    if total_gen = 0 then
      .error (.zeroDivisionError "Total generated kWh is zero, cannot divide by zero.")
    else .ok (use / total_gen)
  else
    let use := hourlyMinSum gen_kwh demand_kWh
    let total_gen := gen_kwh.sum
    if total_gen = 0 then
      .error (.zeroDivisionError "Total generated kWh is zero, cannot divide by zero.")
    else .ok (use / total_gen)

/-- Helper: a masked sum over an all-zero series is zero. -/
theorem maskSumFrom_zero (mask : ℕ → Bool) (gen : List ℚ)
    (hz : ∀ x ∈ gen, x = 0) : ∀ i, maskSumFrom mask i gen = 0 := by
  induction gen with
  | nil => intro i; rfl
  | cons x xs ih =>
      intro i
      have hx : x = 0 := hz x (by simp)
      have hxs : ∀ y ∈ xs, y = 0 := fun y hy => hz y (by simp [hy])
      simp [maskSumFrom, hx, ih hxs]

/-- C6: for every time period granularity (the recognised ones and the
fallback), every calendar behaviour and every demand series, an all-zero
generation series makes calc_self_consumption raise ZeroDivisionError rather
than return a ratio. -/
theorem C6_zero_generation_raises (tg : TimeGrouping) (gen demand : List ℚ)
    (tp : String) (hz : ∀ x ∈ gen, x = 0) :
    isZeroDivisionError (calc_self_consumption tg gen demand tp) = true := by
  have hsum : gen.sum = 0 := List.sum_eq_zero hz
  have hmask : ∀ (mask : ℕ → Bool) (i : ℕ), maskSumFrom mask i gen = 0 :=
    fun mask => maskSumFrom_zero mask gen hz
  unfold calc_self_consumption
  by_cases h1 : tp = "annual"
  · simp [h1, hsum, isZeroDivisionError]
  · by_cases h2 : tp = "seasonal"
    · simp [h1, h2, hsum, isZeroDivisionError]
    · by_cases h3 : tp ∈ ["winter", "spring", "summer", "autumn", "winter+hourly",
        "spring+hourly", "summer+hourly", "autumn+hourly"]
      · have h3c : (["winter", "spring", "summer", "autumn", "winter+hourly",
            "spring+hourly", "summer+hourly", "autumn+hourly"]).contains tp = true := by
          exact List.elem_eq_true_of_mem h3
        fin_cases h3 <;>
          simp [h3c, hmask, isZeroDivisionError] <;>
          decide
      · have h3c : (["winter", "spring", "summer", "autumn", "winter+hourly",
            "spring+hourly", "summer+hourly", "autumn+hourly"]).contains tp = false := by
          simpa using h3
        by_cases h4 : tp ∈ ["daily", "weekly", "monthly"]
        · have h4c : (["daily", "weekly", "monthly"]).contains tp = true :=
            List.elem_eq_true_of_mem h4
          fin_cases h4 <;> simp [h3c, h4c, hsum, isZeroDivisionError] <;> decide
        · have h4c : (["daily", "weekly", "monthly"]).contains tp = false := by
            simpa using h4
          have hne3 : ¬(tp = "winter" ∨ tp = "spring" ∨ tp = "summer" ∨
              tp = "autumn" ∨ tp = "winter+hourly" ∨ tp = "spring+hourly" ∨
              tp = "summer+hourly" ∨ tp = "autumn+hourly") := by simpa using h3
          have hne4 : ¬(tp = "daily" ∨ tp = "weekly" ∨ tp = "monthly") := by
            simpa using h4
          by_cases h5 : tp = "hourly"
          · simp [h1, h2, hne3, hne4, h5, hsum, isZeroDivisionError]
          · simp [h1, h2, hne3, hne4, h5, hsum, isZeroDivisionError]

/-- C6 witness: the theorem applied to an all-zero three-hour generation
series, a concrete demand series, the default calendar and the annual
granularity. -/
theorem C6_zero_generation_raises_witness :
    isZeroDivisionError
      (calc_self_consumption {} [0, 0, 0] [1, 2, 3] "annual") = true :=
  C6_zero_generation_raises {} [0, 0, 0] [1, 2, 3] "annual" (by decide)

end ResultReader

namespace Aggregate

/-!
Embedding of aggregate_dataframes from
`cea/import_export/result_summary.py`.  A dataframe is a list of named
columns of rationals.  The pandas column assignment replaces an existing
column in place or appends a new one at the end; a scalar assigned to a
column is broadcast to the row count of the frame.
-/

/-- A dataframe: ordered named columns of rational rows. -/
abbrev Df : Type := List (String × List ℚ)

/-- Column names of a dataframe, in order. -/
def dfCols (df : Df) : List String := df.map (·.1)

/-- Column lookup, as reading df[col] (KeyError when absent is handled at the
call sites that can raise). -/
def dfGet? (df : Df) (c : String) : Option (List ℚ) :=
  (df.find? (fun p => p.1 == c)).map (·.2)

/-- Column assignment df[col] = v: replace in place, or append at the end. -/
def dfSet (df : Df) (c : String) (v : List ℚ) : Df :=
  if df.any (fun p => p.1 == c) then
    df.map (fun p => if p.1 == c then (p.1, v) else p)
  else df ++ [(c, v)]

/-- Number of rows of a frame, read off its first column. -/
def dfNumRows (df : Df) : ℕ := ((df : List (String × List ℚ)).head?.map (fun p => p.2.length)).getD 0

/-- Whether the second character list starts with the first. -/
def charsBegin : List Char → List Char → Bool
  | [], _ => true
  | _ :: _, [] => false
  | a :: as, b :: bs => a == b && charsBegin as bs

/-- Whether a character list occurs inside another (the Python in operator on
strings). -/
def charsContain (sub : List Char) : List Char → Bool
  | [] => charsBegin sub []
  | c :: cs => charsBegin sub (c :: cs) || charsContain sub cs

/-- Whether sub occurs inside s. -/
def strContains (s sub : String) : Bool := charsContain sub.data s.data

/-- Fuel-bounded replacement of every non-overlapping occurrence of pat by
rep, left to right (the Python str.replace); the fuel is the string length,
which each step consumes at least one character of. -/
def replaceFuel (pat rep : List Char) : ℕ → List Char → List Char
  | 0, s => s
  | _ + 1, [] => []
  | fuel + 1, c :: cs =>
      if charsBegin pat (c :: cs) && !pat.isEmpty then
        rep ++ replaceFuel pat rep fuel (cs.drop (pat.length - 1))
      else c :: replaceFuel pat rep fuel cs

/-- Python str.replace on strings. -/
def strReplace (s pat rep : String) : String :=
  String.mk (replaceFuel pat.data rep.data s.data.length s.data)

/-- Maximum entry of a column (numpy Series.max; only applied to nonempty
columns by the code). -/
def listMax : List ℚ → ℚ
  | [] => 0
  | x :: xs => xs.foldl max x

/-- The maximum of a named column across all source dataframes:
max(df[col].max() for df in dataframes). -/
def maxAcross (dfs : List Df) (c : String) : ℚ :=
  listMax (dfs.map (fun df => listMax ((dfGet? df c).getD [])))

/-- One inner-loop step of the aggregation: aggregated[col] =
aggregated[col] + df[col] (elementwise); a missing col raises KeyError. -/
def addCol (agg : Df) (cv : String × List ℚ) : Except PyError Df :=
  match dfGet? agg cv.1 with
  | some old => .ok (dfSet agg cv.1 (List.zipWith (· + ·) old cv.2))
  | none => .error (.keyError cv.1)

/-- Adding one whole source dataframe into the running aggregate. -/
def sumStep (agg : Df) (df : Df) : Except PyError Df := df.foldlM addCol agg

/-- Embedding of aggregate_dataframes: start from a copy of the first frame,
add every remaining frame column by column (the three branches of the inner
loop all perform the same sum), then divide every column containing m2 by the
number of sources, and finally, for every column of the aggregate containing
load_kW, assign a companion power_kW column broadcasting the maximum observed
across the source frames. -/
def aggregate_dataframes (dfs : List Df) : Except PyError Df :=
  match dfs with
  | [] => .error (.valueError "The list of DataFrames is empty.")
  | d0 :: rest => do
      let agg ← rest.foldlM sumStep d0
      let n : ℚ := ((d0 :: rest : List Df).length : ℚ)
      let agg2 : Df := (agg : List (String × List ℚ)).map
        (fun p => if strContains p.1 "m2" then (p.1, p.2.map (· / n)) else p)
      let snapshot := dfCols agg2
      let agg3 := snapshot.foldl (fun a c =>
        if strContains c "load_kW" then
          dfSet a (strReplace c "load_kW" "power_kW")
            (List.replicate (dfNumRows a) (maxAcross (d0 :: rest) c))
        else a) agg2
      .ok agg3

end Aggregate

namespace Aggregate


/-- Column lookup directly on an aggregation result: none when the
aggregation raised. -/
def okGet? (r : Except PyError Df) (c : String) : Option (List ℚ) :=
  match r with
  | .ok df => dfGet? df c
  | .error _ => none

/-- Boolean success test for an aggregation result. -/
def isOkDf (r : Except PyError Df) : Bool :=
  match r with
  | .ok _ => true
  | .error _ => false

/-- C7: aggregate_dataframes on two source frames sharing an area column a
(name containing m2), an energy column b (name containing neither m2 nor
load_kW) and a load column cc (name containing load_kW): the aggregation
succeeds, the aggregated a is the elementwise sum divided by the number of
sources (100 and 200 give 150), the aggregated b is the elementwise sum (100
and 200 give 300), the load column also sums, and a companion power_kW column
appears whose rows all carry the maximum value observed across the two source
frames. -/
theorem C7_aggregation_rules
    (a b cc : String) (va1 va2 vb1 vb2 vc1 vc2 : List ℚ)
    (hla : va1.length = va2.length)
    (ham : strContains a "m2" = true) (hal : strContains a "load_kW" = false)
    (hbm : strContains b "m2" = false) (hbl : strContains b "load_kW" = false)
    (hcm : strContains cc "m2" = false) (hcl : strContains cc "load_kW" = true)
    (hab : a ≠ b) (hac : a ≠ cc) (hbc : b ≠ cc)
    (hpa : strReplace cc "load_kW" "power_kW" ≠ a)
    (hpb : strReplace cc "load_kW" "power_kW" ≠ b)
    (hpc : strReplace cc "load_kW" "power_kW" ≠ cc) :
    isOkDf (aggregate_dataframes
      [[(a, va1), (b, vb1), (cc, vc1)], [(a, va2), (b, vb2), (cc, vc2)]]) = true ∧
    okGet? (aggregate_dataframes
        [[(a, va1), (b, vb1), (cc, vc1)], [(a, va2), (b, vb2), (cc, vc2)]]) a =
      some ((List.zipWith (· + ·) va1 va2).map (· / 2)) ∧
    okGet? (aggregate_dataframes
        [[(a, va1), (b, vb1), (cc, vc1)], [(a, va2), (b, vb2), (cc, vc2)]]) b =
      some (List.zipWith (· + ·) vb1 vb2) ∧
    okGet? (aggregate_dataframes
        [[(a, va1), (b, vb1), (cc, vc1)], [(a, va2), (b, vb2), (cc, vc2)]]) cc =
      some (List.zipWith (· + ·) vc1 vc2) ∧
    okGet? (aggregate_dataframes
        [[(a, va1), (b, vb1), (cc, vc1)], [(a, va2), (b, vb2), (cc, vc2)]])
      (strReplace cc "load_kW" "power_kW") =
      some (List.replicate va1.length (max (listMax vc1) (listMax vc2))) := by
  have hba : (b == a) = false := by simp [beq_iff_eq]; exact fun h => hab h.symm
  have hca : (cc == a) = false := by simp [beq_iff_eq]; exact fun h => hac h.symm
  have hcb : (cc == b) = false := by simp [beq_iff_eq]; exact fun h => hbc h.symm
  have hab' : (a == b) = false := by simp [beq_iff_eq]; exact hab
  have hac' : (a == cc) = false := by simp [beq_iff_eq]; exact hac
  have hbc' : (b == cc) = false := by simp [beq_iff_eq]; exact hbc
  have hpa' : (a == strReplace cc "load_kW" "power_kW") = false := by
    simp [beq_iff_eq]; exact fun h => hpa h.symm
  have hpb' : (b == strReplace cc "load_kW" "power_kW") = false := by
    simp [beq_iff_eq]; exact fun h => hpb h.symm
  have hpc' : (cc == strReplace cc "load_kW" "power_kW") = false := by
    simp [beq_iff_eq]; exact fun h => hpc h.symm
  refine ⟨?_, ?_, ?_, ?_, ?_⟩ <;>
    simp [aggregate_dataframes, sumStep, addCol, dfGet?, dfSet, dfCols,
      dfNumRows, maxAcross, listMax, okGet?, isOkDf, Bind.bind, Except.bind,
      Pure.pure, Except.pure,
      hba, hca, hcb, hab', hac', hbc', hpa', hpb', hpc',
      hab, hac, hbc, hpa, hpb, hpc,
      Ne.symm hab, Ne.symm hac, Ne.symm hbc,
      Ne.symm hpa, Ne.symm hpb, Ne.symm hpc,
      ham, hal, hbm, hbl, hcm, hcl, List.length_zipWith, hla]

/-- C7 witness: two single-row sources with an Area_PV_m2 column of 100 and
200 (aggregates to 150), an E_PV_gen_kWh column of 100 and 200 (aggregates to
300), and a thermal_load_kW column of 100 and 200 (summed to 300, with a
thermal_power_kW companion equal to the maximum 200). -/
theorem C7_aggregation_rules_witness :
    okGet? (aggregate_dataframes
      [[("Area_PV_m2", [100]), ("E_PV_gen_kWh", [100]), ("thermal_load_kW", [100])],
       [("Area_PV_m2", [200]), ("E_PV_gen_kWh", [200]), ("thermal_load_kW", [200])]])
      "Area_PV_m2" = some [(150 : ℚ)] ∧
    okGet? (aggregate_dataframes
      [[("Area_PV_m2", [100]), ("E_PV_gen_kWh", [100]), ("thermal_load_kW", [100])],
       [("Area_PV_m2", [200]), ("E_PV_gen_kWh", [200]), ("thermal_load_kW", [200])]])
      "E_PV_gen_kWh" = some [(300 : ℚ)] ∧
    okGet? (aggregate_dataframes
      [[("Area_PV_m2", [100]), ("E_PV_gen_kWh", [100]), ("thermal_load_kW", [100])],
       [("Area_PV_m2", [200]), ("E_PV_gen_kWh", [200]), ("thermal_load_kW", [200])]])
      "thermal_power_kW" = some [(200 : ℚ)] := by
  obtain ⟨h1, h2, h3, h4, h5⟩ :=
    C7_aggregation_rules "Area_PV_m2" "E_PV_gen_kWh" "thermal_load_kW"
      [100] [200] [100] [200] [100] [200]
      (by decide) (by decide) (by decide) (by decide) (by decide) (by decide)
      (by decide) (by decide) (by decide) (by decide) (by decide) (by decide)
      (by decide)
  have hrepl : strReplace "thermal_load_kW" "load_kW" "power_kW" =
      "thermal_power_kW" := by decide
  refine ⟨?_, ?_, ?_⟩
  · rw [h2]; norm_num
  · rw [h3]; norm_num
  · rw [← hrepl, h5]; norm_num [listMax]

namespace Decentralized

/-!
Embedding of the best-configuration selection of
disconnected_buildings_heating_main in
`cea/optimization/preprocessing/decentralized_buildings_heating.py`
(lines 239 to 304): thirteen candidate configurations carry a total
annualized cost, a GHG and a primary-energy value; the three rankings are
combined by the counting while-loop; ground-source rows whose ground-area
requirement exceeds the available geothermal area get one extra counter
point and a −1 marker; the winner row is marked 1.  The constants GHP_A and
GHP_HMAX_SIZE come from cea.optimization.constants, outside the given
sources, and are passed as parameters.  The Best column holds only the
integer markers 1, −1 and 0, so it is modelled over ℤ.
-/

/-- Ordering of (index, value) pairs by value, used to model np.argsort. -/
def leSnd (p q : ℕ × ℚ) : Prop := p.2 ≤ q.2

instance : DecidableRel leSnd := fun p q => inferInstanceAs (Decidable (p.2 ≤ q.2))

/-- Indices of the objective values in increasing order of value (np.argsort;
a stable sort, which coincides with numpy on the distinct values in play). -/
def argsortIdx (vals : List ℚ) : List ℕ :=
  (List.insertionSort leSnd ((List.range vals.length).zip vals)).map Prod.fst

/-- Whether configuration row k (3 to 12 are the boiler-plus-ground-source
blends) is excluded by the ground-area constraint: Qallowed =
ceil(areaAvail / GHP_A) * GHP_HMAX_SIZE is below the ground-source share
(1 - i/10) * Qnom_W of the blend i = k - 3. -/
def excludedConfig (QnomW areaAvail ghpA ghpHmax : ℚ) (k : ℕ) : Bool :=
  decide (3 ≤ k) && decide (k ≤ 12) &&
    decide (((⌈areaAvail / ghpA⌉ : ℤ) : ℚ) * ghpHmax <
      (1 - ((k - 3 : ℕ) : ℚ) / 10) * QnomW)

/-- Decrement of one counter cell, optsearch[i] -= 1. -/
def decAt (f : ℕ → ℤ) (i : ℕ) : ℕ → ℤ :=
  fun k => if k = i then f k - 1 else f k

/-- The counting while-loop: walk the three rankings rank by rank,
decrementing the counter of the configuration at the current rank of each
ranking, and stop at the first rank after which some counter is exactly zero,
returning the lowest such configuration index (np.where(optsearch == 0)[0][0]);
none when every rank is exhausted without a zero counter. -/
def selectLoop : List ℕ → List ℕ → List ℕ → (ℕ → ℤ) → Option ℕ
  | c :: cs, o :: os, p :: ps, opt =>
      let optNext := decAt (decAt (decAt opt c) o) p
      match (List.range 13).find? (fun i => optNext i == 0) with
      | some j => some j
      | none => selectLoop cs os ps optNext
  | _, _, _, _ => none

/-- Embedding of the Best-column computation: counters seeded at 3 (one extra
for area-excluded rows), the three argsort rankings walked by the while-loop,
the winner row (default 0 when no winner is found) written as 1 and every
excluded row written as −1 beforehand. -/
def best_configuration (tac co2 prim : List ℚ)
    (QnomW areaAvail ghpA ghpHmax : ℚ) : List ℤ :=
  let costS := argsortIdx tac
  let co2S := argsortIdx co2
  let primS := argsortIdx prim
  let excl := excludedConfig QnomW areaAvail ghpA ghpHmax
  let opt0 : ℕ → ℤ := fun k => 3 + (if excl k then 1 else 0)
  let indexBest := (selectLoop costS co2S primS opt0).getD 0
  (List.range 13).map (fun k =>
    if k = indexBest then 1 else if excl k then -1 else 0)

/-- Helper: the argsort index list is a permutation of the index range. -/
theorem argsortIdx_perm (vals : List ℚ) :
    (argsortIdx vals).Perm (List.range vals.length) := by
  unfold argsortIdx
  have h := (List.perm_insertionSort leSnd ((List.range vals.length).zip vals)).map
    Prod.fst
  rwa [List.map_fst_zip _ _ (by simp)] at h

/-- Helper: every configuration index below 13 occurs exactly once in the
argsort of a 13-entry objective column. -/
theorem argsortIdx_count (vals : List ℚ) (hlen : vals.length = 13)
    (i : ℕ) (hi : i < 13) : (argsortIdx vals).count i = 1 := by
  rw [(argsortIdx_perm vals).count_eq, hlen]
  exact List.count_eq_one_of_mem (List.nodup_range 13) (List.mem_range.mpr hi)

/-- Helper: the while-loop always terminates with a found index below 13
whose row is not excluded, provided the counters carry the loop invariant
(counter = one extra point for excluded rows plus the remaining occurrence
counts in the three rankings) and row 0 is never excluded. -/
theorem selectLoop_finds (excl : ℕ → Bool) (hexcl0 : excl 0 = false) :
    ∀ (cs os ps : List ℕ) (opt : ℕ → ℤ),
    cs.length = os.length → os.length = ps.length → cs ≠ [] →
    (∀ i, i < 13 → opt i = (if excl i then 1 else 0) +
      (cs.count i : ℤ) + (os.count i : ℤ) + (ps.count i : ℤ)) →
    ∃ j, selectLoop cs os ps opt = some j ∧ j < 13 ∧ excl j = false := by
  intro cs
  induction cs with
  | nil => intro os ps opt _ _ hne _; exact absurd rfl hne
  | cons c cs ih =>
      intro os ps opt hlen1 hlen2 _ hinv
      match os, ps with
      | [], _ => simp at hlen1
      | _ :: _, [] => simp at hlen2
      | o :: os, p :: ps =>
        have hlen1' : cs.length = os.length := by simpa using hlen1
        have hlen2' : os.length = ps.length := by simpa using hlen2
        have hinv' : ∀ i, i < 13 →
            (decAt (decAt (decAt opt c) o) p) i = (if excl i then 1 else 0) +
              (cs.count i : ℤ) + (os.count i : ℤ) + (ps.count i : ℤ) := by
          intro i hi
          have h := hinv i hi
          simp only [decAt, List.count_cons] at h ⊢
          by_cases h1 : i = c <;> by_cases h2 : i = o <;> by_cases h3 : i = p <;>
            simp [h1, h2, h3] at h ⊢ <;> omega
        rcases hfind : (List.range 13).find?
            (fun i => (decAt (decAt (decAt opt c) o) p) i == 0) with _ | j
        · have hne' : cs ≠ [] := by
            intro hnil
            subst hnil
            have hos : os = [] := by simpa using hlen1'.symm
            have hps : ps = [] := by rw [hos] at hlen2'; simpa using hlen2'.symm
            subst hos; subst hps
            have h0 := hinv' 0 (by norm_num)
            simp [hexcl0] at h0
            have := List.find?_eq_none.mp hfind 0 (by simp)
            simp [h0] at this
          obtain ⟨j, hj, hj13, hjex⟩ := ih os ps _ hlen1' hlen2' hne' hinv'
          refine ⟨j, ?_, hj13, hjex⟩
          simp only [selectLoop, hfind]
          exact hj
        · have hj0 : (decAt (decAt (decAt opt c) o) p) j = 0 := by
            have := List.find?_some hfind
            simpa using this
          have hj13 : j < 13 := by
            have := List.mem_of_find?_eq_some hfind
            simpa using this
          refine ⟨j, ?_, hj13, ?_⟩
          · simp only [selectLoop, hfind]
          · by_contra hex
            have hex' : excl j = true := by
              cases hx : excl j
              · exact absurd hx hex
              · rfl
            have h := hinv' j hj13
            rw [hj0, hex'] at h
            have c1 : (0 : ℤ) ≤ (cs.count j : ℤ) := Int.natCast_nonneg _
            have c2 : (0 : ℤ) ≤ (os.count j : ℤ) := Int.natCast_nonneg _
            have c3 : (0 : ℤ) ≤ (ps.count j : ℤ) := Int.natCast_nonneg _
            simp at h
            omega

/-- Helper: over rows that do not carry the winner, the marker column sums to
minus the number of excluded rows. -/
theorem marker_sum_out (excl : ℕ → Bool) (j : ℕ) :
    ∀ L : List ℕ, j ∉ L →
      ((L.map (fun k => if k = j then (1 : ℤ) else if excl k then -1 else 0)).sum
        = -(L.countP excl : ℤ)) := by
  intro L
  induction L with
  | nil => simp
  | cons a L ih =>
      intro hj
      simp only [List.mem_cons, not_or] at hj
      have ha : ¬ a = j := fun h => hj.1 h.symm
      rw [List.map_cons, List.sum_cons, ih hj.2, List.countP_cons]
      by_cases hea : excl a
      · simp only [ha, if_false, hea, if_true]
        omega
      · simp [ha, hea]

/-- Helper: a winner-free stretch of the marker column contains no 1 entry. -/
theorem marker_count_out (excl : ℕ → Bool) (j : ℕ) :
    ∀ L : List ℕ, j ∉ L →
      ((L.map (fun k => if k = j then (1 : ℤ) else if excl k then -1 else 0)).count 1
        = 0) := by
  intro L
  induction L with
  | nil => simp
  | cons a L ih =>
      intro hj
      simp only [List.mem_cons, not_or] at hj
      have ha : ¬ a = j := fun h => hj.1 h.symm
      rw [List.map_cons, List.count_cons, ih hj.2]
      by_cases hea : excl a <;> simp [ha, hea]

/-- Helper: with a non-excluded winner occurring exactly once, the marker
column sums to 1 minus the number of excluded rows. -/
theorem marker_sum (excl : ℕ → Bool) (j : ℕ) :
    ∀ L : List ℕ, j ∈ L → L.Nodup → excl j = false →
      ((L.map (fun k => if k = j then (1 : ℤ) else if excl k then -1 else 0)).sum
        = 1 - (L.countP excl : ℤ)) := by
  intro L
  induction L with
  | nil => intro h; simp at h
  | cons a L ih =>
      intro hj hnd hex
      rcases List.mem_cons.mp hj with h | h
      · subst h
        have hnotin : j ∉ L := (List.nodup_cons.mp hnd).1
        rw [List.map_cons, List.sum_cons, marker_sum_out excl j L hnotin,
          List.countP_cons]
        simp [hex]
        omega
      · have ha : ¬ a = j := by
          intro hcontra
          subst hcontra
          exact (List.nodup_cons.mp hnd).1 h
        rw [List.map_cons, List.sum_cons, ih h (List.nodup_cons.mp hnd).2 hex,
          List.countP_cons]
        by_cases hea : excl a
        · simp only [ha, if_false, hea, if_true]
          omega
        · simp [ha, hea]

/-- Helper: with a non-excluded winner occurring exactly once, the marker
column contains exactly one 1 entry. -/
theorem marker_count (excl : ℕ → Bool) (j : ℕ) :
    ∀ L : List ℕ, j ∈ L → L.Nodup →
      ((L.map (fun k => if k = j then (1 : ℤ) else if excl k then -1 else 0)).count 1
        = 1) := by
  intro L
  induction L with
  | nil => intro h; simp at h
  | cons a L ih =>
      intro hj hnd
      rcases List.mem_cons.mp hj with h | h
      · subst h
        have hnotin : j ∉ L := (List.nodup_cons.mp hnd).1
        rw [List.map_cons, List.count_cons, marker_count_out excl j L hnotin]
        simp
      · have ha : ¬ a = j := by
          intro hcontra
          subst hcontra
          exact (List.nodup_cons.mp hnd).1 h
        rw [List.map_cons, List.count_cons, ih h (List.nodup_cons.mp hnd).2]
        by_cases hea : excl a <;> simp [ha, hea]

/-- Helper: reading position k of the mapped range. -/
theorem getD_map_range (n k : ℕ) (f : ℕ → ℤ) (h : k < n) :
    ((List.range n).map f).getD k 0 = f k := by
  rw [List.getD_eq_getElem?_getD]
  simp [List.getElem?_map, List.getElem?_range, h]

/-- C9 amended: for any 13-entry objective columns, the Best configuration
column has 13 rows, carries exactly one winner marker 1 (never on an
area-excluded row), carries −1 on every area-excluded ground-source row (rows
3 to 12 only; rows 0 to 2 are never excluded), and therefore sums to 1 minus
the number of excluded configurations instead of always exactly 1. -/
theorem C9_amended (tac co2 prim : List ℚ) (QnomW areaAvail ghpA ghpHmax : ℚ)
    (hlt : tac.length = 13) (hlc : co2.length = 13) (hlp : prim.length = 13) :
    (best_configuration tac co2 prim QnomW areaAvail ghpA ghpHmax).length = 13 ∧
    (best_configuration tac co2 prim QnomW areaAvail ghpA ghpHmax).count 1 = 1 ∧
    (best_configuration tac co2 prim QnomW areaAvail ghpA ghpHmax).sum =
      1 - (((List.range 13).countP
        (excludedConfig QnomW areaAvail ghpA ghpHmax)) : ℤ) ∧
    (∀ k, k < 13 → excludedConfig QnomW areaAvail ghpA ghpHmax k = true →
      (best_configuration tac co2 prim QnomW areaAvail ghpA ghpHmax).getD k 0 = -1) ∧
    (∀ k, excludedConfig QnomW areaAvail ghpA ghpHmax k = true → 3 ≤ k ∧ k ≤ 12) := by
  have hexcl0 : excludedConfig QnomW areaAvail ghpA ghpHmax 0 = false := by
    simp [excludedConfig]
  have hlen1 : (argsortIdx tac).length = (argsortIdx co2).length := by
    rw [(argsortIdx_perm tac).length_eq, (argsortIdx_perm co2).length_eq, hlt, hlc]
  have hlen2 : (argsortIdx co2).length = (argsortIdx prim).length := by
    rw [(argsortIdx_perm co2).length_eq, (argsortIdx_perm prim).length_eq, hlc, hlp]
  have hne : argsortIdx tac ≠ [] := by
    intro h
    have := (argsortIdx_perm tac).length_eq
    rw [h, hlt] at this
    simp at this
  have hinv : ∀ i, i < 13 →
      (fun k => 3 + if excludedConfig QnomW areaAvail ghpA ghpHmax k then (1 : ℤ) else 0) i =
        (if excludedConfig QnomW areaAvail ghpA ghpHmax i then (1 : ℤ) else 0) +
          ((argsortIdx tac).count i : ℤ) + ((argsortIdx co2).count i : ℤ) +
          ((argsortIdx prim).count i : ℤ) := by
    intro i hi
    rw [argsortIdx_count tac hlt i hi, argsortIdx_count co2 hlc i hi,
      argsortIdx_count prim hlp i hi]
    push_cast
    ring
  obtain ⟨j, hloop, hj13, hjex⟩ :=
    selectLoop_finds (excludedConfig QnomW areaAvail ghpA ghpHmax) hexcl0
      (argsortIdx tac) (argsortIdx co2) (argsortIdx prim) _ hlen1 hlen2 hne hinv
  have hbest : best_configuration tac co2 prim QnomW areaAvail ghpA ghpHmax =
      (List.range 13).map (fun k =>
        if k = j then (1 : ℤ)
        else if excludedConfig QnomW areaAvail ghpA ghpHmax k then -1 else 0) := by
    simp only [best_configuration]
    rw [hloop]
    rfl
  rw [hbest]
  refine ⟨by simp, ?_, ?_, ?_, ?_⟩
  · exact marker_count _ j (List.range 13) (List.mem_range.mpr hj13) (List.nodup_range 13)
  · exact marker_sum _ j (List.range 13) (List.mem_range.mpr hj13)
      (List.nodup_range 13) hjex
  · intro k hk hkex
    rw [getD_map_range 13 k _ hk]
    have hkj : ¬ k = j := by
      intro h
      rw [h, hjex] at hkex
      exact Bool.false_ne_true hkex
    simp [hkj, hkex]
  · intro k hkex
    unfold excludedConfig at hkex
    simp only [Bool.and_eq_true, decide_eq_true_eq] at hkex
    exact ⟨hkex.1.1, hkex.1.2⟩

/-- Ascending objective column used for the concrete instances. -/
def objW : List ℚ := [0, 1, 2, 3, 4, 5, 6, 7, 8, 9, 10, 11, 12]

/-- C9 counterexample: with ascending objective columns, nominal load 100,
available area 1, GHP_A 1 and GHP_HMAX_SIZE 95, only blend row 3 (100 percent
ground-source) violates the area constraint; the winner is row 0 and the Best
column holds one 1 and one −1, so it sums to 0, not 1 as claimed. -/
theorem C9_counterexample :
    (best_configuration objW objW objW 100 1 1 95).sum = 0 ∧ ((0 : ℤ) ≠ 1) := by
  have hexcl : excludedConfig 100 1 1 95 = fun k => decide (k = 3) := by
    funext k
    by_cases h3 : 3 ≤ k
    · by_cases h12 : k ≤ 12
      · interval_cases k <;> norm_num [excludedConfig]
      · have hk : ¬ k = 3 := by omega
        simp [excludedConfig, h12, hk]
    · have hk : ¬ k = 3 := by omega
      simp [excludedConfig, h3, hk]
  constructor
  · simp only [best_configuration, hexcl]
    decide
  · decide

/-- C9 amended witness: the amended theorem applied to the concrete instance;
its Best column carries exactly one winner marker. -/
theorem C9_amended_witness :
    objW.length = 13 ∧
    (best_configuration objW objW objW 100 1 1 95).length = 13 ∧
    (best_configuration objW objW objW 100 1 1 95).count 1 = 1 :=
  ⟨by decide,
   (C9_amended objW objW objW 100 1 1 95 (by decide) (by decide) (by decide)).1,
   (C9_amended objW objW objW 100 1 1 95 (by decide) (by decide) (by decide)).2.1⟩

end Decentralized

namespace Crossover

/-!
Embedding of crossover_main from `cea/optimization/master/crossover.py`.
The deap uniform-crossover primitive draws one random number per gene; the
draws are abstracted into boolean swap masks (one mask per crossover call),
so every theorem quantifies over all random outcomes.  The Python dicts built
by dict(zip(column_names, individual)) are modelled as lookup functions built
by left-to-right insertion.
-/

/-- deap tools.cxUniform with the draws fixed by a swap mask: the genes at
position i of the common prefix of the two individuals are exchanged exactly
when the mask holds at i. -/
def cxUniform : List ℚ → List ℚ → (ℕ → Bool) → List ℚ × List ℚ
  | x :: xs, y :: ys, m =>
      let rest := cxUniform xs ys (fun i => m (i + 1))
      if m 0 then (y :: rest.1, x :: rest.2) else (x :: rest.1, y :: rest.2)
  | xs, ys, _ => (xs, ys)

/-- Python dict(zip(names, vals)) as a lookup function, built by inserting
the pairs left to right (later duplicates overwrite); keys never inserted
look up to 0, a value the theorems never rely on. -/
def dictOfZip (names : List String) (vals : List ℚ) : String → ℚ :=
  (names.zip vals).foldl (fun d p => fun c => if c = p.1 then p.2 else d c) (fun _ => 0)

/-- Sequential writeback dict[column] = value over zip(group, values). -/
def writeGroup : (String → ℚ) → List String → List ℚ → (String → ℚ)
  | d, [], _ => d
  | d, _ :: _, [] => d
  | d, n :: ns, v :: vs => writeGroup (fun c => if c = n then v else d c) ns vs

/-- One crossover block of the source: read the gene group from both dicts,
apply uniform crossover, and write both results back. -/
def applyGroupPair (d1 d2 : String → ℚ) (g : List String) (mask : ℕ → Bool) :
    (String → ℚ) × (String → ℚ) :=
  let r := cxUniform (g.map d1) (g.map d2) mask
  (writeGroup d1 g r.1, writeGroup d2 g r.2)

/-- Run configuration and gene-group names of crossover_main. -/
structure XoverCfg where
  column_names : List String := []
  heating_unit_names_share : List String := []
  cooling_unit_names_share : List String := []
  column_names_buildings_heating : List String := []
  column_names_buildings_cooling : List String := []
  district_heating_network : Bool := false
  district_cooling_network : Bool := false

/-- The dict pipeline of crossover_main: build the two name dicts, apply
uniform crossover to the heating building-connectivity and heating share
groups when the heating network is enabled, then to the cooling
building-connectivity and cooling share groups when the cooling network is
enabled.  The four masks stand for the four independent cxUniform calls. -/
def crossover_dicts (cfg : XoverCfg) (ind1 ind2 : List ℚ) (masks : ℕ → ℕ → Bool) :
    (String → ℚ) × (String → ℚ) :=
  let d1 := dictOfZip cfg.column_names ind1
  let d2 := dictOfZip cfg.column_names ind2
  let afterHeating :=
    if cfg.district_heating_network then
      let t := applyGroupPair d1 d2 cfg.column_names_buildings_heating (masks 0)
      applyGroupPair t.1 t.2 cfg.heating_unit_names_share (masks 1)
    else (d1, d2)
  if cfg.district_cooling_network then
    let t := applyGroupPair afterHeating.1 afterHeating.2
      cfg.column_names_buildings_cooling (masks 2)
    applyGroupPair t.1 t.2 cfg.cooling_unit_names_share (masks 3)
  else afterHeating

/-- Embedding of crossover_main: run the dict pipeline, then write every
column back into the two flat individuals in column order. -/
def crossover_main (cfg : XoverCfg) (ind1 ind2 : List ℚ) (masks : ℕ → ℕ → Bool) :
    List ℚ × List ℚ :=
  (cfg.column_names.map (crossover_dicts cfg ind1 ind2 masks).1,
   cfg.column_names.map (crossover_dicts cfg ind1 ind2 masks).2)

/-- The value an individual carries for a named gene. -/
def geneValue (names : List String) (ind : List ℚ) (c : String) : ℚ :=
  dictOfZip names ind c

/-- Helper: writing back a group leaves every column outside the group
untouched. -/
theorem writeGroup_not_mem : ∀ (g : List String) (vs : List ℚ) (d : String → ℚ)
    (c : String), c ∉ g → writeGroup d g vs c = d c := by
  intro g
  induction g with
  | nil => intro vs d c _; cases vs <;> rfl
  | cons n ns ih =>
      intro vs d c hc
      simp only [List.mem_cons, not_or] at hc
      cases vs with
      | nil => rfl
      | cons v vs =>
          rw [writeGroup, ih vs _ c hc.2]
          simp [hc.1]

/-- Helper: writing back a duplicate-free group stores exactly the written
values. -/
theorem writeGroup_map : ∀ (g : List String) (vs : List ℚ) (d : String → ℚ),
    g.Nodup → g.length = vs.length → g.map (writeGroup d g vs) = vs := by
  intro g
  induction g with
  | nil =>
      intro vs d _ hlen
      cases vs with
      | nil => rfl
      | cons v vs => simp at hlen
  | cons n ns ih =>
      intro vs d hnd hlen
      cases vs with
      | nil => simp at hlen
      | cons v vs =>
          have hnotin : n ∉ ns := (List.nodup_cons.mp hnd).1
          rw [List.map_cons, writeGroup,
            writeGroup_not_mem ns vs _ n hnotin,
            ih vs _ (List.nodup_cons.mp hnd).2 (by simpa using hlen)]
          simp

/-- Helper: cxUniform preserves the lengths of equal-length inputs. -/
theorem cxUniform_length : ∀ (xs ys : List ℚ) (m : ℕ → Bool),
    xs.length = ys.length →
    (cxUniform xs ys m).1.length = xs.length ∧
    (cxUniform xs ys m).2.length = ys.length := by
  intro xs
  induction xs with
  | nil => intro ys m hlen; cases ys with
      | nil => exact ⟨rfl, rfl⟩
      | cons y ys => simp at hlen
  | cons x xs ih =>
      intro ys m hlen
      cases ys with
      | nil => simp at hlen
      | cons y ys =>
          have h := ih ys (fun i => m (i + 1)) (by simpa using hlen)
          by_cases hm : m 0 = true <;>
            simp [cxUniform, hm, h.1, h.2]

/-- Helper: cxUniform only exchanges values between the two individuals: the
concatenation of its two outputs is a permutation of the concatenation of its
two inputs. -/
theorem cxUniform_perm : ∀ (xs ys : List ℚ) (m : ℕ → Bool),
    xs.length = ys.length →
    ((cxUniform xs ys m).1 ++ (cxUniform xs ys m).2).Perm (xs ++ ys) := by
  intro xs
  induction xs with
  | nil => intro ys m hlen; cases ys with
      | nil => exact List.Perm.refl _
      | cons y ys => simp at hlen
  | cons x xs ih =>
      intro ys m hlen
      cases ys with
      | nil => simp at hlen
      | cons y ys =>
          have h := ih ys (fun i => m (i + 1)) (by simpa using hlen)
          cases hm : m 0 with
          | true =>
              simp only [cxUniform, hm, if_true]
              have p1 : ((y :: (cxUniform xs ys fun i => m (i + 1)).1) ++
                  (x :: (cxUniform xs ys fun i => m (i + 1)).2)).Perm
                    (y :: x :: ((cxUniform xs ys fun i => m (i + 1)).1 ++
                      (cxUniform xs ys fun i => m (i + 1)).2)) :=
                (List.perm_middle).cons y
              have p2 : (y :: x :: ((cxUniform xs ys fun i => m (i + 1)).1 ++
                  (cxUniform xs ys fun i => m (i + 1)).2)).Perm
                    (y :: x :: (xs ++ ys)) := (h.cons x).cons y
              have p4 : (x :: y :: (xs ++ ys)).Perm (x :: (xs ++ y :: ys)) :=
                (List.perm_middle.symm).cons x
              exact ((p1.trans p2).trans (List.Perm.swap x y _)).trans p4
          | false =>
              simp only [cxUniform, hm, Bool.false_eq_true, if_false]
              have p1 : ((x :: (cxUniform xs ys fun i => m (i + 1)).1) ++
                  (y :: (cxUniform xs ys fun i => m (i + 1)).2)).Perm
                    (x :: y :: ((cxUniform xs ys fun i => m (i + 1)).1 ++
                      (cxUniform xs ys fun i => m (i + 1)).2)) :=
                (List.perm_middle).cons x
              have p2 : (x :: y :: ((cxUniform xs ys fun i => m (i + 1)).1 ++
                  (cxUniform xs ys fun i => m (i + 1)).2)).Perm
                    (x :: y :: (xs ++ ys)) := (h.cons y).cons x
              have p4 : (x :: y :: (xs ++ ys)).Perm (x :: (xs ++ y :: ys)) :=
                (List.perm_middle.symm).cons x
              exact (p1.trans p2).trans p4

/-- Helper: one crossover block leaves every column outside its group
untouched in both dicts. -/
theorem applyGroupPair_outside (d1 d2 : String → ℚ) (g : List String)
    (m : ℕ → Bool) (c : String) (hc : c ∉ g) :
    (applyGroupPair d1 d2 g m).1 c = d1 c ∧
    (applyGroupPair d1 d2 g m).2 c = d2 c :=
  ⟨writeGroup_not_mem g _ d1 c hc, writeGroup_not_mem g _ d2 c hc⟩

/-- Helper: one crossover block preserves the combined multiset of its own
group values across the two dicts. -/
theorem applyGroupPair_perm (d1 d2 : String → ℚ) (g : List String)
    (m : ℕ → Bool) (hnd : g.Nodup) :
    (g.map (applyGroupPair d1 d2 g m).1 ++ g.map (applyGroupPair d1 d2 g m).2).Perm
      (g.map d1 ++ g.map d2) := by
  have hlen : (g.map d1).length = (g.map d2).length := by simp
  have h1 := (cxUniform_length (g.map d1) (g.map d2) m hlen).1
  have h2 := (cxUniform_length (g.map d1) (g.map d2) m hlen).2
  unfold applyGroupPair
  rw [writeGroup_map g _ d1 hnd (by simp [h1]),
    writeGroup_map g _ d2 hnd (by simp [h2])]
  exact cxUniform_perm (g.map d1) (g.map d2) m hlen


/-- Helper: the dict fold leaves keys that never occur among the inserted
pairs at their base value. -/
theorem dictFold_not_mem : ∀ (ps : List (String × ℚ)) (d : String → ℚ) (c : String),
    c ∉ ps.map (fun p => p.1) →
    (ps.foldl (fun d p => fun x => if x = p.1 then p.2 else d x) d) c = d c := by
  intro ps
  induction ps with
  | nil => intro d c _; rfl
  | cons p ps ih =>
      intro d c hc
      simp only [List.map_cons, List.mem_cons, not_or] at hc
      rw [List.foldl_cons, ih _ c hc.2]
      simp [hc.1]

/-- Helper: a key outside the column-name list looks up to the base value 0. -/
theorem dictOfZip_not_mem (names : List String) (vals : List ℚ) (c : String)
    (hc : c ∉ names) : dictOfZip names vals c = 0 := by
  unfold dictOfZip
  apply dictFold_not_mem
  intro hmem
  rcases List.mem_map.mp hmem with ⟨p, hp, hpc⟩
  exact hc (hpc ▸ (List.of_mem_zip hp).1)

/-- Helper: reading a dict built from names zipped with a function of the
names returns that function on every name. -/
theorem dictFold_map : ∀ (names : List String) (f : String → ℚ) (d : String → ℚ)
    (c : String), c ∈ names →
    ((names.zip (names.map f)).foldl
      (fun d p => fun x => if x = p.1 then p.2 else d x) d) c = f c := by
  intro names
  induction names with
  | nil => intro f d c hc; simp at hc
  | cons n ns ih =>
      intro f d c hc
      rw [List.map_cons, List.zip_cons_cons, List.foldl_cons]
      by_cases hmem : c ∈ ns
      · exact ih f _ c hmem
      · have hcn : c = n := by
          rcases List.mem_cons.mp hc with h | h
          · exact h
          · exact absurd h hmem
        have hnot : c ∉ (ns.zip (ns.map f)).map (fun p => p.1) := by
          intro hmem2
          rcases List.mem_map.mp hmem2 with ⟨p, hp, hpc⟩
          exact hmem (hpc ▸ (List.of_mem_zip hp).1)
        rw [dictFold_not_mem _ _ c hnot]
        simp [hcn]

/-- Helper: dictOfZip over a mapped value list evaluates the map on members. -/
theorem dictOfZip_map (names : List String) (f : String → ℚ) (c : String)
    (hc : c ∈ names) : dictOfZip names (names.map f) c = f c :=
  dictFold_map names f _ c hc

/-- Helper: pointwise equal dict pairs read equal value blocks on a group. -/
theorem valsPair_congr (p q : (String → ℚ) × (String → ℚ)) (g : List String)
    (h : ∀ c ∈ g, p.1 c = q.1 c ∧ p.2 c = q.2 c) :
    g.map p.1 ++ g.map p.2 = g.map q.1 ++ g.map q.2 := by
  rw [List.map_congr_left (fun c hc => (h c hc).1),
    List.map_congr_left (fun c hc => (h c hc).2)]

/-- Helper: a crossover block on a disjoint group leaves the value block of
this group unchanged. -/
theorem stage_outside_vals (f1 f2 : String → ℚ) (g gOther : List String)
    (m : ℕ → Bool) (hdis : ∀ c ∈ g, c ∉ gOther) :
    g.map (applyGroupPair f1 f2 gOther m).1 ++
      g.map (applyGroupPair f1 f2 gOther m).2 = g.map f1 ++ g.map f2 :=
  valsPair_congr _ (f1, f2) g
    (fun c hc => applyGroupPair_outside f1 f2 gOther m c (hdis c hc))


/-- Helper: a gene untouched by every executed crossover block keeps its
value in both dicts. -/
theorem crossover_dicts_pointwise (cfg : XoverCfg) (ind1 ind2 : List ℚ)
    (masks : ℕ → ℕ → Bool) (c : String)
    (hH : cfg.district_heating_network = true →
      c ∉ cfg.column_names_buildings_heating ∧ c ∉ cfg.heating_unit_names_share)
    (hC : cfg.district_cooling_network = true →
      c ∉ cfg.column_names_buildings_cooling ∧ c ∉ cfg.cooling_unit_names_share) :
    (crossover_dicts cfg ind1 ind2 masks).1 c = dictOfZip cfg.column_names ind1 c ∧
    (crossover_dicts cfg ind1 ind2 masks).2 c = dictOfZip cfg.column_names ind2 c := by
  cases hh : cfg.district_heating_network with
  | false =>
      cases hc : cfg.district_cooling_network with
      | false => simp [crossover_dicts, hh, hc]
      | true =>
          obtain ⟨h3, h4⟩ := hC hc
          simp only [crossover_dicts, hh, hc, Bool.false_eq_true, if_false, if_true]
          constructor
          · rw [(applyGroupPair_outside _ _ _ (masks 3) c h4).1,
              (applyGroupPair_outside _ _ _ (masks 2) c h3).1]
          · rw [(applyGroupPair_outside _ _ _ (masks 3) c h4).2,
              (applyGroupPair_outside _ _ _ (masks 2) c h3).2]
  | true =>
      obtain ⟨h1, h2⟩ := hH hh
      cases hc : cfg.district_cooling_network with
      | false =>
          simp only [crossover_dicts, hh, hc, Bool.false_eq_true, if_false, if_true]
          constructor
          · rw [(applyGroupPair_outside _ _ _ (masks 1) c h2).1,
              (applyGroupPair_outside _ _ _ (masks 0) c h1).1]
          · rw [(applyGroupPair_outside _ _ _ (masks 1) c h2).2,
              (applyGroupPair_outside _ _ _ (masks 0) c h1).2]
      | true =>
          obtain ⟨h3, h4⟩ := hC hc
          simp only [crossover_dicts, hh, hc, if_true]
          constructor
          · rw [(applyGroupPair_outside _ _ _ (masks 3) c h4).1,
              (applyGroupPair_outside _ _ _ (masks 2) c h3).1,
              (applyGroupPair_outside _ _ _ (masks 1) c h2).1,
              (applyGroupPair_outside _ _ _ (masks 0) c h1).1]
          · rw [(applyGroupPair_outside _ _ _ (masks 3) c h4).2,
              (applyGroupPair_outside _ _ _ (masks 2) c h3).2,
              (applyGroupPair_outside _ _ _ (masks 1) c h2).2,
              (applyGroupPair_outside _ _ _ (masks 0) c h1).2]


/-- Helper: the combined multiset of the heating building-connectivity gene
values over both dicts is preserved by the whole pipeline. -/
theorem crossover_dicts_perm_bh (cfg : XoverCfg) (ind1 ind2 : List ℚ)
    (masks : ℕ → ℕ → Bool)
    (hnd : cfg.column_names_buildings_heating.Nodup)
    (d12 : ∀ c ∈ cfg.column_names_buildings_heating, c ∉ cfg.heating_unit_names_share)
    (d13 : ∀ c ∈ cfg.column_names_buildings_heating,
      c ∉ cfg.column_names_buildings_cooling)
    (d14 : ∀ c ∈ cfg.column_names_buildings_heating, c ∉ cfg.cooling_unit_names_share) :
    (cfg.column_names_buildings_heating.map (crossover_dicts cfg ind1 ind2 masks).1 ++
     cfg.column_names_buildings_heating.map (crossover_dicts cfg ind1 ind2 masks).2).Perm
      (cfg.column_names_buildings_heating.map (dictOfZip cfg.column_names ind1) ++
       cfg.column_names_buildings_heating.map (dictOfZip cfg.column_names ind2)) := by
  cases hh : cfg.district_heating_network with
  | false =>
      cases hc : cfg.district_cooling_network with
      | false =>
          simp only [crossover_dicts, hh, hc, Bool.false_eq_true, if_false]
          exact List.Perm.refl _
      | true =>
          simp only [crossover_dicts, hh, hc, Bool.false_eq_true, if_false, if_true]
          rw [stage_outside_vals _ _ _ _ (masks 3) d14,
            stage_outside_vals _ _ _ _ (masks 2) d13]
  | true =>
      have hperm := applyGroupPair_perm (dictOfZip cfg.column_names ind1)
        (dictOfZip cfg.column_names ind2) cfg.column_names_buildings_heating
        (masks 0) hnd
      cases hc : cfg.district_cooling_network with
      | false =>
          simp only [crossover_dicts, hh, hc, Bool.false_eq_true, if_false, if_true]
          rw [stage_outside_vals _ _ _ _ (masks 1) d12]
          exact hperm
      | true =>
          simp only [crossover_dicts, hh, hc, if_true]
          rw [stage_outside_vals _ _ _ _ (masks 3) d14,
            stage_outside_vals _ _ _ _ (masks 2) d13,
            stage_outside_vals _ _ _ _ (masks 1) d12]
          exact hperm

/-- Helper: the combined multiset of the heating technology-share gene values
over both dicts is preserved by the whole pipeline. -/
theorem crossover_dicts_perm_hs (cfg : XoverCfg) (ind1 ind2 : List ℚ)
    (masks : ℕ → ℕ → Bool)
    (hnd : cfg.heating_unit_names_share.Nodup)
    (d21 : ∀ c ∈ cfg.heating_unit_names_share,
      c ∉ cfg.column_names_buildings_heating)
    (d23 : ∀ c ∈ cfg.heating_unit_names_share,
      c ∉ cfg.column_names_buildings_cooling)
    (d24 : ∀ c ∈ cfg.heating_unit_names_share, c ∉ cfg.cooling_unit_names_share) :
    (cfg.heating_unit_names_share.map (crossover_dicts cfg ind1 ind2 masks).1 ++
     cfg.heating_unit_names_share.map (crossover_dicts cfg ind1 ind2 masks).2).Perm
      (cfg.heating_unit_names_share.map (dictOfZip cfg.column_names ind1) ++
       cfg.heating_unit_names_share.map (dictOfZip cfg.column_names ind2)) := by
  cases hh : cfg.district_heating_network with
  | false =>
      cases hc : cfg.district_cooling_network with
      | false =>
          simp only [crossover_dicts, hh, hc, Bool.false_eq_true, if_false]
          exact List.Perm.refl _
      | true =>
          simp only [crossover_dicts, hh, hc, Bool.false_eq_true, if_false, if_true]
          rw [stage_outside_vals _ _ _ _ (masks 3) d24,
            stage_outside_vals _ _ _ _ (masks 2) d23]
  | true =>
      have hperm := applyGroupPair_perm
        (applyGroupPair (dictOfZip cfg.column_names ind1)
          (dictOfZip cfg.column_names ind2)
          cfg.column_names_buildings_heating (masks 0)).1
        (applyGroupPair (dictOfZip cfg.column_names ind1)
          (dictOfZip cfg.column_names ind2)
          cfg.column_names_buildings_heating (masks 0)).2
        cfg.heating_unit_names_share (masks 1) hnd
      have heq := stage_outside_vals (dictOfZip cfg.column_names ind1)
        (dictOfZip cfg.column_names ind2) cfg.heating_unit_names_share
        cfg.column_names_buildings_heating (masks 0) d21
      cases hc : cfg.district_cooling_network with
      | false =>
          simp only [crossover_dicts, hh, hc, Bool.false_eq_true, if_false, if_true]
          exact heq ▸ hperm
      | true =>
          simp only [crossover_dicts, hh, hc, if_true]
          rw [stage_outside_vals _ _ _ _ (masks 3) d24,
            stage_outside_vals _ _ _ _ (masks 2) d23]
          exact heq ▸ hperm

/-- Helper: the combined multiset of the cooling building-connectivity gene
values over both dicts is preserved by the whole pipeline. -/
theorem crossover_dicts_perm_bc (cfg : XoverCfg) (ind1 ind2 : List ℚ)
    (masks : ℕ → ℕ → Bool)
    (hnd : cfg.column_names_buildings_cooling.Nodup)
    (d31 : ∀ c ∈ cfg.column_names_buildings_cooling,
      c ∉ cfg.column_names_buildings_heating)
    (d32 : ∀ c ∈ cfg.column_names_buildings_cooling,
      c ∉ cfg.heating_unit_names_share)
    (d34 : ∀ c ∈ cfg.column_names_buildings_cooling,
      c ∉ cfg.cooling_unit_names_share) :
    (cfg.column_names_buildings_cooling.map (crossover_dicts cfg ind1 ind2 masks).1 ++
     cfg.column_names_buildings_cooling.map (crossover_dicts cfg ind1 ind2 masks).2).Perm
      (cfg.column_names_buildings_cooling.map (dictOfZip cfg.column_names ind1) ++
       cfg.column_names_buildings_cooling.map (dictOfZip cfg.column_names ind2)) := by
  cases hc : cfg.district_cooling_network with
  | false =>
      cases hh : cfg.district_heating_network with
      | false =>
          simp only [crossover_dicts, hh, hc, Bool.false_eq_true, if_false]
          exact List.Perm.refl _
      | true =>
          simp only [crossover_dicts, hh, hc, Bool.false_eq_true, if_false, if_true]
          rw [stage_outside_vals _ _ _ _ (masks 1) d32,
            stage_outside_vals _ _ _ _ (masks 0) d31]
  | true =>
      cases hh : cfg.district_heating_network with
      | false =>
          have hperm := applyGroupPair_perm (dictOfZip cfg.column_names ind1)
            (dictOfZip cfg.column_names ind2) cfg.column_names_buildings_cooling
            (masks 2) hnd
          simp only [crossover_dicts, hh, hc, Bool.false_eq_true, if_false, if_true]
          rw [stage_outside_vals _ _ _ _ (masks 3) d34]
          exact hperm
      | true =>
          have hperm := applyGroupPair_perm
            (applyGroupPair
              (applyGroupPair (dictOfZip cfg.column_names ind1)
                (dictOfZip cfg.column_names ind2)
                cfg.column_names_buildings_heating (masks 0)).1
              (applyGroupPair (dictOfZip cfg.column_names ind1)
                (dictOfZip cfg.column_names ind2)
                cfg.column_names_buildings_heating (masks 0)).2
              cfg.heating_unit_names_share (masks 1)).1
            (applyGroupPair
              (applyGroupPair (dictOfZip cfg.column_names ind1)
                (dictOfZip cfg.column_names ind2)
                cfg.column_names_buildings_heating (masks 0)).1
              (applyGroupPair (dictOfZip cfg.column_names ind1)
                (dictOfZip cfg.column_names ind2)
                cfg.column_names_buildings_heating (masks 0)).2
              cfg.heating_unit_names_share (masks 1)).2
            cfg.column_names_buildings_cooling (masks 2) hnd
          simp only [crossover_dicts, hh, hc, if_true]
          rw [stage_outside_vals _ _ _ _ (masks 3) d34]
          refine hperm.trans ?_
          rw [stage_outside_vals _ _ _ _ (masks 1) d32,
            stage_outside_vals _ _ _ _ (masks 0) d31]

/-- Helper: the combined multiset of the cooling technology-share gene values
over both dicts is preserved by the whole pipeline. -/
theorem crossover_dicts_perm_cs (cfg : XoverCfg) (ind1 ind2 : List ℚ)
    (masks : ℕ → ℕ → Bool)
    (hnd : cfg.cooling_unit_names_share.Nodup)
    (d41 : ∀ c ∈ cfg.cooling_unit_names_share,
      c ∉ cfg.column_names_buildings_heating)
    (d42 : ∀ c ∈ cfg.cooling_unit_names_share, c ∉ cfg.heating_unit_names_share)
    (d43 : ∀ c ∈ cfg.cooling_unit_names_share,
      c ∉ cfg.column_names_buildings_cooling) :
    (cfg.cooling_unit_names_share.map (crossover_dicts cfg ind1 ind2 masks).1 ++
     cfg.cooling_unit_names_share.map (crossover_dicts cfg ind1 ind2 masks).2).Perm
      (cfg.cooling_unit_names_share.map (dictOfZip cfg.column_names ind1) ++
       cfg.cooling_unit_names_share.map (dictOfZip cfg.column_names ind2)) := by
  cases hc : cfg.district_cooling_network with
  | false =>
      cases hh : cfg.district_heating_network with
      | false =>
          simp only [crossover_dicts, hh, hc, Bool.false_eq_true, if_false]
          exact List.Perm.refl _
      | true =>
          simp only [crossover_dicts, hh, hc, Bool.false_eq_true, if_false, if_true]
          rw [stage_outside_vals _ _ _ _ (masks 1) d42,
            stage_outside_vals _ _ _ _ (masks 0) d41]
  | true =>
      cases hh : cfg.district_heating_network with
      | false =>
          have hperm := applyGroupPair_perm
            (applyGroupPair (dictOfZip cfg.column_names ind1)
              (dictOfZip cfg.column_names ind2)
              cfg.column_names_buildings_cooling (masks 2)).1
            (applyGroupPair (dictOfZip cfg.column_names ind1)
              (dictOfZip cfg.column_names ind2)
              cfg.column_names_buildings_cooling (masks 2)).2
            cfg.cooling_unit_names_share (masks 3) hnd
          simp only [crossover_dicts, hh, hc, Bool.false_eq_true, if_false, if_true]
          refine hperm.trans ?_
          rw [stage_outside_vals _ _ _ _ (masks 2) d43]
      | true =>
          simp only [crossover_dicts, hh, hc, if_true]
          refine (applyGroupPair_perm _ _ cfg.cooling_unit_names_share
            (masks 3) hnd).trans ?_
          rw [stage_outside_vals _ _ _ _ (masks 2) d43,
            stage_outside_vals _ _ _ _ (masks 1) d42,
            stage_outside_vals _ _ _ _ (masks 0) d41]


/-- Helper: a gene avoided by every executed crossover block keeps its value
in both returned individuals. -/
theorem geneValue_untouched (cfg : XoverCfg) (ind1 ind2 : List ℚ)
    (masks : ℕ → ℕ → Bool) (c : String)
    (hH : cfg.district_heating_network = true →
      c ∉ cfg.column_names_buildings_heating ∧ c ∉ cfg.heating_unit_names_share)
    (hC : cfg.district_cooling_network = true →
      c ∉ cfg.column_names_buildings_cooling ∧ c ∉ cfg.cooling_unit_names_share) :
    geneValue cfg.column_names (crossover_main cfg ind1 ind2 masks).1 c =
      geneValue cfg.column_names ind1 c ∧
    geneValue cfg.column_names (crossover_main cfg ind1 ind2 masks).2 c =
      geneValue cfg.column_names ind2 c := by
  by_cases hcn : c ∈ cfg.column_names
  · have hp := crossover_dicts_pointwise cfg ind1 ind2 masks c hH hC
    constructor
    · exact (dictOfZip_map cfg.column_names
        (crossover_dicts cfg ind1 ind2 masks).1 c hcn).trans hp.1
    · exact (dictOfZip_map cfg.column_names
        (crossover_dicts cfg ind1 ind2 masks).2 c hcn).trans hp.2
  · constructor
    · exact (dictOfZip_not_mem cfg.column_names _ c hcn).trans
        (dictOfZip_not_mem cfg.column_names ind1 c hcn).symm
    · exact (dictOfZip_not_mem cfg.column_names _ c hcn).trans
        (dictOfZip_not_mem cfg.column_names ind2 c hcn).symm

/-- Helper: over a group of recognised column names, the gene values of a
returned individual are the values of the final dict pipeline. -/
theorem map_geneValue_out (cfg : XoverCfg) (ind1 ind2 : List ℚ)
    (masks : ℕ → ℕ → Bool) (g : List String)
    (hsub : ∀ c ∈ g, c ∈ cfg.column_names) :
    g.map (geneValue cfg.column_names (crossover_main cfg ind1 ind2 masks).1) =
      g.map (crossover_dicts cfg ind1 ind2 masks).1 ∧
    g.map (geneValue cfg.column_names (crossover_main cfg ind1 ind2 masks).2) =
      g.map (crossover_dicts cfg ind1 ind2 masks).2 := by
  constructor <;>
    exact List.map_congr_left (fun c hc =>
      dictOfZip_map cfg.column_names _ c (hsub c hc))

/-- C10: crossover_main only exchanges gene values between the two
individuals inside the same named sub-group, for every run configuration with
well-formed (duplicate-free, pairwise disjoint, recognised) gene groups,
every pair of individuals and every random outcome of the four uniform
crossover calls: the combined multiset of each of the four sub-groups taken
over both returned individuals equals the combined multiset before the call;
the genes of the heating sub-groups are left completely untouched in both
individuals when the heating network is disabled, and likewise for cooling;
and every gene belonging to no sub-group is untouched, so no value ever moves
between two different sub-groups. -/
theorem C10_crossover_gene_isolation (cfg : XoverCfg) (ind1 ind2 : List ℚ)
    (masks : ℕ → ℕ → Bool)
    (hbh : ∀ c ∈ cfg.column_names_buildings_heating, c ∈ cfg.column_names)
    (hhs : ∀ c ∈ cfg.heating_unit_names_share, c ∈ cfg.column_names)
    (hbc : ∀ c ∈ cfg.column_names_buildings_cooling, c ∈ cfg.column_names)
    (hcs : ∀ c ∈ cfg.cooling_unit_names_share, c ∈ cfg.column_names)
    (hnd1 : cfg.column_names_buildings_heating.Nodup)
    (hnd2 : cfg.heating_unit_names_share.Nodup)
    (hnd3 : cfg.column_names_buildings_cooling.Nodup)
    (hnd4 : cfg.cooling_unit_names_share.Nodup)
    (d12 : ∀ c ∈ cfg.column_names_buildings_heating,
      c ∉ cfg.heating_unit_names_share)
    (d13 : ∀ c ∈ cfg.column_names_buildings_heating,
      c ∉ cfg.column_names_buildings_cooling)
    (d14 : ∀ c ∈ cfg.column_names_buildings_heating,
      c ∉ cfg.cooling_unit_names_share)
    (d23 : ∀ c ∈ cfg.heating_unit_names_share,
      c ∉ cfg.column_names_buildings_cooling)
    (d24 : ∀ c ∈ cfg.heating_unit_names_share, c ∉ cfg.cooling_unit_names_share)
    (d34 : ∀ c ∈ cfg.column_names_buildings_cooling,
      c ∉ cfg.cooling_unit_names_share) :
    ((cfg.column_names_buildings_heating.map
        (geneValue cfg.column_names (crossover_main cfg ind1 ind2 masks).1) ++
      cfg.column_names_buildings_heating.map
        (geneValue cfg.column_names (crossover_main cfg ind1 ind2 masks).2)).Perm
      (cfg.column_names_buildings_heating.map (geneValue cfg.column_names ind1) ++
       cfg.column_names_buildings_heating.map (geneValue cfg.column_names ind2))) ∧
    ((cfg.heating_unit_names_share.map
        (geneValue cfg.column_names (crossover_main cfg ind1 ind2 masks).1) ++
      cfg.heating_unit_names_share.map
        (geneValue cfg.column_names (crossover_main cfg ind1 ind2 masks).2)).Perm
      (cfg.heating_unit_names_share.map (geneValue cfg.column_names ind1) ++
       cfg.heating_unit_names_share.map (geneValue cfg.column_names ind2))) ∧
    ((cfg.column_names_buildings_cooling.map
        (geneValue cfg.column_names (crossover_main cfg ind1 ind2 masks).1) ++
      cfg.column_names_buildings_cooling.map
        (geneValue cfg.column_names (crossover_main cfg ind1 ind2 masks).2)).Perm
      (cfg.column_names_buildings_cooling.map (geneValue cfg.column_names ind1) ++
       cfg.column_names_buildings_cooling.map (geneValue cfg.column_names ind2))) ∧
    ((cfg.cooling_unit_names_share.map
        (geneValue cfg.column_names (crossover_main cfg ind1 ind2 masks).1) ++
      cfg.cooling_unit_names_share.map
        (geneValue cfg.column_names (crossover_main cfg ind1 ind2 masks).2)).Perm
      (cfg.cooling_unit_names_share.map (geneValue cfg.column_names ind1) ++
       cfg.cooling_unit_names_share.map (geneValue cfg.column_names ind2))) ∧
    (cfg.district_heating_network = false →
      ∀ c, c ∈ cfg.column_names_buildings_heating ∨
          c ∈ cfg.heating_unit_names_share →
        geneValue cfg.column_names (crossover_main cfg ind1 ind2 masks).1 c =
          geneValue cfg.column_names ind1 c ∧
        geneValue cfg.column_names (crossover_main cfg ind1 ind2 masks).2 c =
          geneValue cfg.column_names ind2 c) ∧
    (cfg.district_cooling_network = false →
      ∀ c, c ∈ cfg.column_names_buildings_cooling ∨
          c ∈ cfg.cooling_unit_names_share →
        geneValue cfg.column_names (crossover_main cfg ind1 ind2 masks).1 c =
          geneValue cfg.column_names ind1 c ∧
        geneValue cfg.column_names (crossover_main cfg ind1 ind2 masks).2 c =
          geneValue cfg.column_names ind2 c) ∧
    (∀ c, c ∉ cfg.column_names_buildings_heating →
        c ∉ cfg.heating_unit_names_share →
        c ∉ cfg.column_names_buildings_cooling →
        c ∉ cfg.cooling_unit_names_share →
        geneValue cfg.column_names (crossover_main cfg ind1 ind2 masks).1 c =
          geneValue cfg.column_names ind1 c ∧
        geneValue cfg.column_names (crossover_main cfg ind1 ind2 masks).2 c =
          geneValue cfg.column_names ind2 c) := by
  refine ⟨?_, ?_, ?_, ?_, ?_, ?_, ?_⟩
  · have hmap := map_geneValue_out cfg ind1 ind2 masks
      cfg.column_names_buildings_heating hbh
    rw [hmap.1, hmap.2]
    exact crossover_dicts_perm_bh cfg ind1 ind2 masks hnd1 d12 d13 d14
  · have hmap := map_geneValue_out cfg ind1 ind2 masks
      cfg.heating_unit_names_share hhs
    rw [hmap.1, hmap.2]
    exact crossover_dicts_perm_hs cfg ind1 ind2 masks hnd2
      (fun c hc hmem => d12 c hmem hc) d23 d24
  · have hmap := map_geneValue_out cfg ind1 ind2 masks
      cfg.column_names_buildings_cooling hbc
    rw [hmap.1, hmap.2]
    exact crossover_dicts_perm_bc cfg ind1 ind2 masks hnd3
      (fun c hc hmem => d13 c hmem hc) (fun c hc hmem => d23 c hmem hc) d34
  · have hmap := map_geneValue_out cfg ind1 ind2 masks
      cfg.cooling_unit_names_share hcs
    rw [hmap.1, hmap.2]
    exact crossover_dicts_perm_cs cfg ind1 ind2 masks hnd4
      (fun c hc hmem => d14 c hmem hc) (fun c hc hmem => d24 c hmem hc)
      (fun c hc hmem => d34 c hmem hc)
  · intro hful c hcmem
    refine geneValue_untouched cfg ind1 ind2 masks c ?_ ?_
    · intro ht
      rw [hful] at ht
      exact absurd ht (by simp)
    · intro _
      rcases hcmem with h | h
      · exact ⟨d13 c h, d14 c h⟩
      · exact ⟨d23 c h, d24 c h⟩
  · intro hful c hcmem
    refine geneValue_untouched cfg ind1 ind2 masks c ?_ ?_
    · intro _
      rcases hcmem with h | h
      · exact ⟨fun hmem => d13 c hmem h, fun hmem => d23 c hmem h⟩
      · exact ⟨fun hmem => d14 c hmem h, fun hmem => d24 c hmem h⟩
    · intro ht
      rw [hful] at ht
      exact absurd ht (by simp)
  · intro c h1 h2 h3 h4
    exact geneValue_untouched cfg ind1 ind2 masks c
      (fun _ => ⟨h1, h2⟩) (fun _ => ⟨h3, h4⟩)

/-- Concrete run configuration for the witness: four columns, one per gene
group, heating network enabled, cooling network disabled. -/
def cfgW : XoverCfg :=
  { column_names := ["a", "b", "c", "d"],
    column_names_buildings_heating := ["a"],
    heating_unit_names_share := ["b"],
    column_names_buildings_cooling := ["c"],
    cooling_unit_names_share := ["d"],
    district_heating_network := true,
    district_cooling_network := false }

/-- Always-swap masks for the witness. -/
def mW : ℕ → ℕ → Bool := fun _ _ => true

/-- C10 witness: the theorem applied to the concrete configuration; the
combined multiset of the heating-connectivity gene over both individuals is
preserved. -/
theorem C10_crossover_gene_isolation_witness :
    (cfgW.column_names_buildings_heating.map
        (geneValue cfgW.column_names (crossover_main cfgW [1, 2, 3, 4] [5, 6, 7, 8] mW).1) ++
      cfgW.column_names_buildings_heating.map
        (geneValue cfgW.column_names (crossover_main cfgW [1, 2, 3, 4] [5, 6, 7, 8] mW).2)).Perm
      (cfgW.column_names_buildings_heating.map (geneValue cfgW.column_names [1, 2, 3, 4]) ++
       cfgW.column_names_buildings_heating.map (geneValue cfgW.column_names [5, 6, 7, 8])) :=
  (C10_crossover_gene_isolation cfgW [1, 2, 3, 4] [5, 6, 7, 8] mW
    (by decide) (by decide) (by decide) (by decide)
    (by decide) (by decide) (by decide) (by decide)
    (by decide) (by decide) (by decide) (by decide) (by decide) (by decide)).1

end Crossover
